import Mathlib

/-!
# Crash-capture signal handler: a shallow embedding

The definitions below follow `handler/exception_handler.cpp`.  Process-wide
state (the disposition table, the alternate stack, the file system and the
file-scope globals of the translation unit) is collected in `World`; every
function takes the world and returns the new one.  Results of system calls
that the code cannot predict are supplied by oracle records.  Calls whose only
effect is on the outside are appended to `World.trace`.

Modelling decisions:
* `World.files` lists the files that can be opened for reading.  The tracer
  child runs outside the model: what it does shows only in the result of the
  wait, and the artifact it writes is not tracked.
* `fclose` of a null handle is recorded as `Event.fclose none`, and the model
  goes on with the statement after it.
* Dereferencing the null `g_handler_stack_` and erasing the end iterator have
  no defined result: `SignalHandler` and the destructor return `none` there.
* `InstallDefaultHandler` follows the `__ANDROID__` branch.  The copy of the
  floating point state in `HandleSignal` follows the branch for targets that
  are neither aarch64 nor ARM EABI nor MIPS.
* An object is identified by its address `addr`; `c_path_` and `fdes`, which
  the constructor does not assign, start as `none`.
-/

namespace google_breakpad

/-! ## Platform constants (Linux) -/

def SIGILL : Int := 4
def SIGABRT : Int := 6
def SIGBUS : Int := 7
def SIGFPE : Int := 8
def SIGSEGV : Int := 11

def SA_SIGINFO : Nat := 0x00000004
def SA_ONSTACK : Nat := 0x08000000
def SA_RESTART : Nat := 0x10000000
def SS_DISABLE : Int := 2
def SIGSTKSZ : Nat := 8192
def SI_USER : Int := 0
def SI_TKILL : Int := -6
def EINTR : Int := 4
def PR_SET_DUMPABLE : Nat := 4
def PR_SET_PTRACER : Nat := 0x59616d61

/-- The list of signals which are considered to be crashes. -/
def kExceptionSignals : List Int := [SIGSEGV, SIGABRT, SIGFPE, SIGILL, SIGBUS]

def kNumHandledSignals : Nat := kExceptionSignals.length

def FLAG_FILE : String := "flagfile"

def kChildStackSize : Nat := 16000

/-! ## Data model -/

/-- What `sa_handler` / `sa_sigaction` of a disposition points to. -/
inductive SigHandler where
  | SIG_DFL
  | SIG_IGN
  | SignalHandler
  | other (addr : Nat)
deriving DecidableEq, Repr

/-- A `struct sigaction`: handler, signal mask (as the list of its members)
and flags. -/
structure SigAction where
  sa_handler : SigHandler
  sa_mask : List Int
  sa_flags : Nat
deriving DecidableEq, Repr

/-- A `stack_t`. -/
structure stack_t where
  ss_sp : Nat
  ss_flags : Int
  ss_size : Nat
deriving DecidableEq, Repr

/-- The fields of `siginfo_t` that the handler reads. -/
structure siginfo_t where
  si_signo : Int
  si_code : Int
  si_pid : Int
deriving DecidableEq, Repr

/-- A `struct ucontext`: the saved registers as a blob, and the `fpregs`
pointer of `uc_mcontext` (`none` for a null pointer). -/
structure ucontext where
  uc_mcontext : List Nat
  fpregs : Option (List Nat)
deriving DecidableEq, Repr

/-- The record `ExceptionHandler::CrashContext`. -/
structure CrashContext where
  siginfo : siginfo_t
  tid : Int
  context : ucontext
  float_state : List Nat
deriving DecidableEq, Repr

/-- The crash context after `memset(&g_crash_context_, 0, ...)`. -/
def CrashContext.zero : CrashContext :=
  { siginfo := ⟨0, 0, 0⟩, tid := 0, context := ⟨[], none⟩, float_state := [] }

/-- Broken-down time, `struct tm` (the fields read by the format used). -/
structure tm where
  tm_sec : Nat
  tm_min : Nat
  tm_hour : Nat
  tm_mday : Nat
  tm_mon : Nat
  tm_year : Nat
deriving DecidableEq, Repr

/-- One return of `sys_waitpid`: the result, `errno` and the status word. -/
structure WaitResult where
  r : Int
  errno : Int
  status : Nat
deriving DecidableEq, Repr

/-- Calls with an effect outside the modelled state, in program order. -/
inductive Event where
  | lock
  | unlock
  | callback (type : Int) (path : Option String) (succeeded : Bool)
  | fclose (fp : Option String)
  | prctl (option : Nat) (arg : Int)
  | clone (handler : Nat) (pid : Int) (path : String) (result : Int)
  | write (fd : Int)
  | waitpid (child : Int)
  | close (fd : Int)
  | log (msg : String)
  | tgkill (tgid : Int) (tid : Int) (sig : Int)
  | _exit (status : Int)
deriving DecidableEq, Repr

/-- The type `DumpCallback`: `(type, path, succeeded) -> bool`.  The path is
`none` when the pointer handed over was never assigned. -/
abbrev DumpCallback := Int → Option String → Bool → Bool

/-- The members of an `ExceptionHandler` object; `addr` is its address. -/
structure ExceptionHandler where
  addr : Nat
  callback_ : Option DumpCallback
  directory_ : String
  path_ : String
  c_path_ : Option String
  fdes : Option (Int × Int)

/-- Kernel state of the process together with the globals of
`exception_handler.cpp`. -/
structure World where
  dispositions : Int → SigAction
  altstack : stack_t
  files : List String
  old_handlers : Nat → SigAction
  handlers_installed : Bool
  old_stack : stack_t
  new_stack : stack_t
  stack_installed : Bool
  g_handler_stack_ : Option (List ExceptionHandler)
  g_crash_context_ : CrashContext
  signal : Int
  trace : List Event

/-- Append one event to the trace. -/
def World.emit (w : World) (e : Event) : World :=
  { w with trace := w.trace ++ [e] }

/-- Append an event when the condition holds. -/
def World.emitIf (w : World) (c : Bool) (e : Event) : World :=
  if c then w.emit e else w

/-- The effect of `if (callback_) callback_(type, path, succeeded)` on the world:
the call is recorded when the instance has a callback. -/
def World.invoke (w : World) (callback : Option DumpCallback) (type : Int)
    (path : Option String) (succeeded : Bool) : World :=
  match callback with
  | some _ => w.emit (Event.callback type path succeeded)
  | none => w

def World.setDispositions (w : World) (d : Int → SigAction) : World :=
  { w with dispositions := d }

def World.setFiles (w : World) (fs : List String) : World :=
  { w with files := fs }

def World.setOldHandlers (w : World) (old : Nat → SigAction) : World :=
  { w with old_handlers := old }

def World.setHandlersInstalled (w : World) (b : Bool) : World :=
  { w with handlers_installed := b }

def World.setHandlerStack (w : World) (stack : Option (List ExceptionHandler)) : World :=
  { w with g_handler_stack_ := stack }

def World.setCrashContext (w : World) (c : CrashContext) : World :=
  { w with g_crash_context_ := c }

def World.setSignal (w : World) (sig : Int) : World :=
  { w with signal := sig }

/-- Results of the system calls made while one instance handles a signal. -/
structure DumpOracle where
  fopen_w_ok : Bool
  getpid : Int
  gettid : Int
  alloc_ok : Bool
  localtime : tm
  time_string_init : String
  pipe : Option (Int × Int)
  clone : Int
  waits : List WaitResult
  wait_last : WaitResult

/-- Results of the system calls made by the constructor. -/
structure InstallOracle where
  sigaltstack_get_fails : Bool
  sigaltstack_set_fails : Bool
  calloc : Nat
  sigaction_get_fails : Int → Bool
  sigaction_set_fails : Int → Bool

/-- Results of the system calls made when handlers and stack are restored. -/
structure RestoreOracle where
  sigaltstack_get_fails : Bool
  sigaltstack_set_fails : Bool
  sigaction_set_fails : Int → Bool

/-- Results of the system calls made by one run of `SignalHandler`; `dump i`
serves the instance at index `i` of the handler stack. -/
structure SignalOracle where
  sigaction_get_fails : Bool
  sigaction_set_fails : Int → Bool
  dump : Nat → DumpOracle
  getpid : Int
  gettid : Int
  tgkill : Int

/-! ## Alternate stack -/

def kSigStackSize : Nat := max 16384 SIGSTKSZ

/-- `InstallAlternateStackLocked`. -/
def InstallAlternateStackLocked (o : InstallOracle) (w : World) : World :=
  if w.stack_installed then w
  else
    let zero : stack_t := ⟨0, 0, 0⟩
    let old := if o.sigaltstack_get_fails then zero else w.altstack
    let w1 := { w with old_stack := old, new_stack := zero }
    if o.sigaltstack_get_fails || old.ss_sp == 0 || decide (old.ss_size < kSigStackSize) then
      let ns : stack_t := ⟨o.calloc, 0, kSigStackSize⟩
      let w2 := { w1 with new_stack := ns }
      if o.sigaltstack_set_fails then w2
      else { w2 with altstack := ns, stack_installed := true }
    else w1

/-- `RestoreAlternateStackLocked`. -/
def RestoreAlternateStackLocked (o : RestoreOracle) (w : World) : World :=
  if !w.stack_installed then w
  else if o.sigaltstack_get_fails then w
  else if w.altstack.ss_sp == w.new_stack.ss_sp then
    if w.old_stack.ss_sp != 0 then
      if o.sigaltstack_set_fails then w
      else { w with altstack := w.old_stack, stack_installed := false }
    else
      if o.sigaltstack_set_fails then w
      else { w with altstack := ⟨0, SS_DISABLE, 0⟩, stack_installed := false }
  else { w with stack_installed := false }

/-! ## Signal dispositions -/

/-- `InstallDefaultHandler`. -/
def InstallDefaultHandler (sig : Int) (w : World) : World :=
  w.setDispositions (Function.update w.dispositions sig ⟨SigHandler.SIG_DFL, [], SA_RESTART⟩)

/-- `sigaddset`. -/
def sigaddset (mask : List Int) (sig : Int) : List Int :=
  if sig ∈ mask then mask else mask ++ [sig]

/-- The first loop of `InstallHandlersLocked`: store the old handlers, stop at
the first failure. -/
def saveOldHandlers (get_fails : Int → Bool) : List Nat → World → Bool × World
  | [], w => (true, w)
  | i :: rest, w =>
    let sig := kExceptionSignals.getD i 0
    if get_fails sig then (false, w)
    else saveOldHandlers get_fails rest
      (w.setOldHandlers (Function.update w.old_handlers i (w.dispositions sig)))

/-- The `struct sigaction` installed for every handled signal. -/
def dispatcherAction : SigAction :=
  { sa_handler := SigHandler.SignalHandler
    sa_mask := kExceptionSignals.foldl sigaddset []
    sa_flags := SA_ONSTACK ||| SA_SIGINFO }

/-- One iteration of the last loop of `InstallHandlersLocked`; a failure to
install is ignored. -/
def installOne (set_fails : Int → Bool) (w : World) (i : Nat) : World :=
  let sig := kExceptionSignals.getD i 0
  if set_fails sig then w
  else w.setDispositions (Function.update w.dispositions sig dispatcherAction)

/-- `ExceptionHandler::InstallHandlersLocked`. -/
def InstallHandlersLocked (get_fails set_fails : Int → Bool) (w : World) : Bool × World :=
  if w.handlers_installed then (false, w)
  else
    match saveOldHandlers get_fails (List.range kNumHandledSignals) w with
    | (false, w1) => (false, w1)
    | (true, w1) =>
      let w2 := (List.range kNumHandledSignals).foldl (installOne set_fails) w1
      (true, w2.setHandlersInstalled true)

/-- One iteration of the loop of `RestoreHandlersLocked`. -/
def restoreOne (set_fails : Int → Bool) (w : World) (i : Nat) : World :=
  let sig := kExceptionSignals.getD i 0
  if set_fails sig then InstallDefaultHandler sig w
  else w.setDispositions (Function.update w.dispositions sig (w.old_handlers i))

/-- `ExceptionHandler::RestoreHandlersLocked`. -/
def RestoreHandlersLocked (set_fails : Int → Bool) (w : World) : World :=
  if !w.handlers_installed then w
  else
    let w1 := (List.range kNumHandledSignals).foldl (restoreOne set_fails) w
    w1.setHandlersInstalled false

/-! ## The dump orchestrator -/

/-- Two decimal digits, zero padded (`%m`, `%d`, `%H`, `%M`, `%S`). -/
def twoDigits (n : Nat) : String :=
  if n < 10 then "0" ++ toString n else toString n

/-- `strftime(buf, max, "%Y%m%d%H%M%S", &t)`: the formatted text when it fits
in `max` bytes with its terminator, `none` when it does not (the buffer is
then left in an unspecified state). -/
def strftime (max : Nat) (t : tm) : Option String :=
  let s := toString (t.tm_year + 1900) ++ twoDigits (t.tm_mon + 1) ++ twoDigits t.tm_mday
    ++ twoDigits t.tm_hour ++ twoDigits t.tm_min ++ twoDigits t.tm_sec
  if s.length < max then some s else none

/-- `HANDLE_EINTR(sys_waitpid(...))`: retry while the call fails with `EINTR`;
`waits` are the returns of the successive calls and `last` the return of the
call after them. -/
def HANDLE_EINTR_waitpid : List WaitResult → WaitResult → WaitResult
  | [], last => last
  | x :: rest, last =>
    if x.r == -1 && x.errno == EINTR then HANDLE_EINTR_waitpid rest last else x

def WIFEXITED (status : Nat) : Bool := (status &&& 0x7f) == 0

def WEXITSTATUS (status : Nat) : Nat := (status &&& 0xff00) >>> 8

/-- `ExceptionHandler::CheckHandlerValid`.  The file can be opened for reading
exactly when it is in `w.files`; `fclose` of a null handle is recorded as
`Event.fclose none`. -/
def ExceptionHandler.CheckHandlerValid (h : ExceptionHandler) (o : DumpOracle) (w : World) :
    Bool × World :=
  let file_path := h.directory_ ++ "/" ++ FLAG_FILE
  if file_path ∈ w.files then (false, w)
  else if o.fopen_w_ok then
    (true, (w.setFiles (file_path :: w.files)).emit (Event.fclose (some file_path)))
  else
    (true, w.emit (Event.fclose none))

/-- The value of `success` computed by `GenerateDump` from the wait. -/
def dumpSucceeded (res : WaitResult) : Bool :=
  res.r != -1 && WIFEXITED res.status && WEXITSTATUS res.status == 0

/-- `ExceptionHandler::GenerateDump`, called with `&g_crash_context_`. -/
def ExceptionHandler.GenerateDump (h : ExceptionHandler) (o : DumpOracle) (w : World) :
    Bool × ExceptionHandler × World :=
  if !o.alloc_ok then (false, h, w)
  else
    let time_string := (strftime 20 o.localtime).getD o.time_string_init
    let path := h.directory_ ++ "/" ++ time_string
    let fdes : Int × Int := o.pipe.getD (-1, -1)
    let h1 := { h with path_ := path, c_path_ := some path, fdes := some fdes }
    let child := o.clone
    let w1 := w.emit (Event.clone h.addr o.getpid path child)
    if child == -1 then
      (false, h1, (w1.emit (Event.close fdes.1)).emit (Event.close fdes.2))
    else
      let w2 := w1.emit (Event.prctl PR_SET_PTRACER child)
      let w3 := w2.emit (Event.write fdes.2)
      let res := HANDLE_EINTR_waitpid o.waits o.wait_last
      let w4 := w3.emit (Event.waitpid child)
      let w5 := (w4.emit (Event.close fdes.1)).emit (Event.close fdes.2)
      let w6 := w5.emitIf (res.r == -1) (Event.log "generate fail")
      let success := dumpSucceeded res
      let file_path := h.directory_ ++ "/" ++ FLAG_FILE
      let w7 := w6.setFiles (w6.files.filter (fun f => f != file_path))
      let w8 := w7.invoke h.callback_ 1 (some path) success
      let _success := match h.callback_ with
        | some cb => cb 1 (some path) success
        | none => success
      (false, h1, w8.emit (Event.log "finish"))

/-- `ExceptionHandler::HandleSignal`. -/
def ExceptionHandler.HandleSignal (h : ExceptionHandler) (sig : Int) (info : siginfo_t)
    (uc : ucontext) (o : DumpOracle) (w : World) : Bool × ExceptionHandler × World :=
  match h.CheckHandlerValid o w with
  | (false, w1) => (false, h, w1.invoke h.callback_ 2 h.c_path_ false)
  | (true, w1) =>
    let w2 := w1.invoke h.callback_ 0 h.c_path_ false
    let w3 := w2.setSignal sig
    let signal_trusted := decide (info.si_code > 0)
    let signal_pid_trusted := info.si_code == SI_USER || info.si_code == SI_TKILL
    let w4 := w3.emitIf (signal_trusted || (signal_pid_trusted && info.si_pid == o.getpid))
      (Event.prctl PR_SET_DUMPABLE 1)
    let float_state := uc.fpregs.getD []
    let w5 := w4.setCrashContext
      { siginfo := info, tid := o.gettid, context := uc, float_state := float_state }
    h.GenerateDump o w5

/-! ## The signal dispatcher -/

/-- The loop of `SignalHandler` over the handler stack: `n` is `i + 1` for the
index `i` visited next; it stops at index 0 or once an instance has handled
the signal. -/
def SignalHandler.loop (sig : Int) (info : siginfo_t) (uc : ucontext) (dump : Nat → DumpOracle) :
    Nat → List ExceptionHandler → World → Bool × List ExceptionHandler × World
  | 0, stack, w => (false, stack, w)
  | i + 1, stack, w =>
    match stack[i]? with
    | none => (false, stack, w)
    | some h =>
      match h.HandleSignal sig info uc (dump i) w with
      | (true, h1, w1) => (true, stack.set i h1, w1)
      | (false, h1, w1) => SignalHandler.loop sig info uc dump i (stack.set i h1) w1

/-- The dispatcher reinstalled by the check of the `SA_SIGINFO` flag. -/
def reinstalledAction (sig : Int) : SigAction :=
  { sa_handler := SigHandler.SignalHandler
    sa_mask := sigaddset [] sig
    sa_flags := SA_ONSTACK ||| SA_SIGINFO }

/-- The end of `SignalHandler`, after the lock is released: send the signal
again when it came from a user or is `SIGABRT`. -/
def SignalHandler.reraise (sig : Int) (info : siginfo_t) (o : SignalOracle) (w : World) : World :=
  if decide (info.si_code ≤ 0) || sig == SIGABRT then
    (w.emit (Event.tgkill o.getpid o.gettid sig)).emitIf (decide (o.tgkill < 0)) (Event._exit 1)
  else w

/-- `ExceptionHandler::SignalHandler`; `none` when the null `g_handler_stack_`
is dereferenced. -/
def ExceptionHandler.SignalHandler (sig : Int) (info : siginfo_t) (uc : ucontext)
    (o : SignalOracle) (w : World) : Option World :=
  let w0 := w.emit Event.lock
  let cur_handler := w0.dispositions sig
  if !o.sigaction_get_fails && (cur_handler.sa_flags &&& SA_SIGINFO) == 0 then
    let w1 := if o.sigaction_set_fails sig then InstallDefaultHandler sig w0
      else w0.setDispositions (Function.update w0.dispositions sig (reinstalledAction sig))
    some (w1.emit Event.unlock)
  else
    match w0.g_handler_stack_ with
    | none => none
    | some stack =>
      match SignalHandler.loop sig info uc o.dump stack.length stack w0 with
      | (handled, stack1, w1) =>
        let w2 := w1.setHandlerStack (some stack1)
        let w3 := if handled then InstallDefaultHandler sig w2
          else RestoreHandlersLocked o.sigaction_set_fails w2
        let w4 := w3.emit Event.unlock
        some (SignalHandler.reraise sig info o w4)

/-! ## Construction and destruction -/

/-- The constructor `ExceptionHandler::ExceptionHandler`, for the object at
`addr`. -/
def ExceptionHandler.construct (addr : Nat) (directory : String) (callback : Option DumpCallback)
    (install_handler : Bool) (o : InstallOracle) (w : World) : World :=
  let this : ExceptionHandler :=
    { addr := addr, callback_ := callback, directory_ := directory,
      path_ := "", c_path_ := none, fdes := none }
  let w1 := w.emit Event.lock
  let w2 := w1.setCrashContext CrashContext.zero
  let w3 := match w2.g_handler_stack_ with
    | none => w2.setHandlerStack (some [])
    | some _ => w2
  let w4 := if install_handler then
      (InstallHandlersLocked o.sigaction_get_fails o.sigaction_set_fails
        (InstallAlternateStackLocked o w3)).2
    else w3
  let w5 := w4.setHandlerStack (some ((w4.g_handler_stack_.getD []) ++ [this]))
  w5.emit Event.unlock

/-- Remove the first element with address `a` (`std::find` then `erase`). -/
def eraseAddr (a : Nat) : List ExceptionHandler → List ExceptionHandler
  | [] => []
  | h :: t => if h.addr == a then t else h :: eraseAddr a t

/-- The destructor `ExceptionHandler::~ExceptionHandler` of the object at
`addr`; `none` when `g_handler_stack_` is null or the object is not found in
it (erasing the end iterator). -/
def ExceptionHandler.destroy (addr : Nat) (o : RestoreOracle) (w : World) : Option World :=
  let w1 := w.emit Event.lock
  match w1.g_handler_stack_ with
  | none => none
  | some stack =>
    if stack.any (fun h => h.addr == addr) then
      let stack1 := eraseAddr addr stack
      let w2 := w1.setHandlerStack (some stack1)
      let w3 := if stack1.isEmpty then
          RestoreHandlersLocked o.sigaction_set_fails
            (RestoreAlternateStackLocked o (w2.setHandlerStack none))
        else w2
      some (w3.emit Event.unlock)
    else none

/-! ## Sequences of operations and observations on traces -/

/-- One operation on the process: construct an instance, destroy one, or have
the kernel deliver a signal to `SignalHandler`. -/
inductive Op where
  | construct (addr : Nat) (directory : String) (callback : Option DumpCallback)
      (install_handler : Bool) (o : InstallOracle)
  | destroy (addr : Nat) (o : RestoreOracle)
  | deliver (sig : Int) (info : siginfo_t) (uc : ucontext) (o : SignalOracle)

/-- Run one operation. -/
def step (w : World) : Op → Option World
  | Op.construct a d c i o => some (ExceptionHandler.construct a d c i o w)
  | Op.destroy a o => ExceptionHandler.destroy a o w
  | Op.deliver s i u o => ExceptionHandler.SignalHandler s i u o w

/-- Arguments of one constructor call with `install_handler = true`. -/
structure CtorArgs where
  addr : Nat
  directory : String
  callback : Option DumpCallback
  o : InstallOracle

/-- Construct instances one after the other, each with `install_handler = true`. -/
def constructAll : List CtorArgs → World → World
  | [], w => w
  | c :: cs, w => constructAll cs (ExceptionHandler.construct c.addr c.directory c.callback true c.o w)

/-- Destroy the instances at the given addresses one after the other. -/
def destroyAll : List (Nat × RestoreOracle) → World → Option World
  | [], w => some w
  | d :: ds, w => (ExceptionHandler.destroy d.1 d.2 w).bind (destroyAll ds)

/-- The events appended to the trace on the way from `w` to `w2`. -/
def emitted (w w2 : World) : List Event := w2.trace.drop w.trace.length

/-- The callback invocations among some events, as `(type, path, succeeded)`. -/
def callbackCalls : List Event → List (Int × Option String × Bool)
  | [] => []
  | Event.callback t p s :: es => (t, p, s) :: callbackCalls es
  | _ :: es => callbackCalls es

/-- The addresses of the instances that spawned a tracer child (a `clone` that
did not return -1), in order. -/
def spawners : List Event → List Nat
  | [] => []
  | Event.clone h _ _ r :: es => if r == -1 then spawners es else h :: spawners es
  | _ :: es => spawners es

/-- Whether the delivery takes the path past the check of the `SA_SIGINFO` flag. -/
def passesSiginfoCheck (sig : Int) (o : SignalOracle) (w : World) : Bool :=
  !(!o.sigaction_get_fails && ((w.dispositions sig).sa_flags &&& SA_SIGINFO) == 0)

/-- The value of `handled` after the loop of `SignalHandler` for this delivery. -/
def deliveryHandled (sig : Int) (info : siginfo_t) (uc : ucontext) (o : SignalOracle)
    (w : World) : Bool :=
  match w.g_handler_stack_ with
  | none => false
  | some stack => (SignalHandler.loop sig info uc o.dump stack.length stack (w.emit Event.lock)).1

/-! ## Sample inputs -/

/-- A callback that returns the flag it is given. -/
def echoCallback : DumpCallback := fun _ _ succeeded => succeeded

/-- A disposition installed by some other component before any instance exists. -/
def previousAction : SigAction :=
  { sa_handler := SigHandler.other 7, sa_mask := [], sa_flags := SA_SIGINFO }

/-- A process in which no instance was constructed yet and the target
directories hold no marker. -/
def idleWorld : World :=
  { dispositions := fun _ => previousAction
    altstack := ⟨0, 0, 0⟩
    files := []
    old_handlers := fun _ => ⟨SigHandler.SIG_DFL, [], 0⟩
    handlers_installed := false
    old_stack := ⟨0, 0, 0⟩
    new_stack := ⟨0, 0, 0⟩
    stack_installed := false
    g_handler_stack_ := none
    g_crash_context_ := CrashContext.zero
    signal := 0
    trace := [] }

/-- All system calls of a dump succeed; the tracer child 200 exits with status 0
on 2024-01-02 03:04:05. -/
def okDump : DumpOracle :=
  { fopen_w_ok := true, getpid := 100, gettid := 101, alloc_ok := true
    localtime := ⟨5, 4, 3, 2, 0, 124⟩, time_string_init := ""
    pipe := some (3, 4), clone := 200, waits := [], wait_last := ⟨200, 0, 0⟩ }

/-- All system calls of a constructor succeed. -/
def okInstall : InstallOracle :=
  { sigaltstack_get_fails := false, sigaltstack_set_fails := false, calloc := 4096
    sigaction_get_fails := fun _ => false, sigaction_set_fails := fun _ => false }

/-- All system calls of a restore succeed. -/
def okRestore : RestoreOracle :=
  { sigaltstack_get_fails := false, sigaltstack_set_fails := false
    sigaction_set_fails := fun _ => false }

/-- All system calls of a delivery succeed. -/
def okSignal : SignalOracle :=
  { sigaction_get_fails := false, sigaction_set_fails := fun _ => false
    dump := fun _ => okDump, getpid := 100, gettid := 101, tgkill := 0 }

/-- A newly constructed instance for directory `/data/a` with a callback. -/
def freshHandler : ExceptionHandler :=
  { addr := 1, callback_ := some echoCallback, directory_ := "/data/a"
    path_ := "", c_path_ := none, fdes := none }

/-- A hardware fault: `SIGSEGV` with `si_code = SEGV_MAPERR`. -/
def faultInfo : siginfo_t := ⟨11, 1, 0⟩

def emptyContext : ucontext := ⟨[], none⟩

/-- One instance with a callback, handlers installed. -/
def oneInstanceWorld : World :=
  ExceptionHandler.construct 1 "/data/a" (some echoCallback) true okInstall idleWorld

/-- Two instances with callbacks and distinct directories, handlers installed. -/
def twoInstanceWorld : World :=
  ExceptionHandler.construct 2 "/data/b" (some echoCallback) true okInstall oneInstanceWorld

/-! ## Definitions used to state and prove the properties -/

/-- The part of a world that handling a signal in one instance never touches. -/
structure SameHandlers (w w2 : World) : Prop where
  dispositions : w2.dispositions = w.dispositions
  old_handlers : w2.old_handlers = w.old_handlers
  handlers_installed : w2.handlers_installed = w.handlers_installed
  g_handler_stack_ : w2.g_handler_stack_ = w.g_handler_stack_

/-- The events of one `GenerateDump` run. -/
def GenerateDump.events (h : ExceptionHandler) (o : DumpOracle) : List Event :=
  let path := h.directory_ ++ "/" ++ (strftime 20 o.localtime).getD o.time_string_init
  let fdes : Int × Int := o.pipe.getD (-1, -1)
  let res := HANDLE_EINTR_waitpid o.waits o.wait_last
  if !o.alloc_ok then []
  else if o.clone == -1 then
    [Event.clone h.addr o.getpid path o.clone, Event.close fdes.1, Event.close fdes.2]
  else
    [Event.clone h.addr o.getpid path o.clone, Event.prctl PR_SET_PTRACER o.clone,
      Event.write fdes.2, Event.waitpid o.clone, Event.close fdes.1, Event.close fdes.2]
    ++ (if res.r == -1 then [Event.log "generate fail"] else [])
    ++ (if h.callback_.isSome then [Event.callback 1 (some path) (dumpSucceeded res)] else [])
    ++ [Event.log "finish"]

/-- The events of one `HandleSignal` run started in world `w`. -/
def HandleSignal.events (h : ExceptionHandler) (info : siginfo_t) (o : DumpOracle)
    (w : World) : List Event :=
  let file_path := h.directory_ ++ "/" ++ FLAG_FILE
  if file_path ∈ w.files then
    (if h.callback_.isSome then [Event.callback 2 h.c_path_ false] else [])
  else
    [Event.fclose (if o.fopen_w_ok then some file_path else none)]
    ++ (if h.callback_.isSome then [Event.callback 0 h.c_path_ false] else [])
    ++ (if decide (info.si_code > 0)
          || ((info.si_code == SI_USER || info.si_code == SI_TKILL) && info.si_pid == o.getpid)
        then [Event.prctl PR_SET_DUMPABLE 1] else [])
    ++ GenerateDump.events h o

/-- The events that handling a signal inside an instance can produce: no lock
operation, no signal sent, no process exit. -/
def Event.fromDump : Event → Bool
  | Event.lock => false
  | Event.unlock => false
  | Event.tgkill _ _ _ => false
  | Event._exit _ => false
  | _ => true

/-- The state between the first construction and the last destruction, seen
from the world `w0` before the first construction: the instances at `addrs`
are registered, the handlers are installed, the saved dispositions are those
of `w0` and the dispatcher is installed for the handled signals. -/
structure Registered (w0 w : World) (addrs : List Nat) : Prop where
  stack : ∃ stk, w.g_handler_stack_ = some stk ∧ stk.map (fun h => h.addr) = addrs
  installed : w.handlers_installed = true
  saved : ∀ i, i < kNumHandledSignals →
    w.old_handlers i = w0.dispositions (kExceptionSignals.getD i 0)
  dispatcher : ∀ s ∈ kExceptionSignals, w.dispositions s = dispatcherAction

/-- Whether an operation started in `w` is one of the two that take the
dispatcher away: a destruction after which the registry is empty, or a
delivery that passes the flag check and that no instance handles. -/
def removesHandlers (w : World) : Op → Bool
  | Op.construct _ _ _ _ _ => false
  | Op.destroy a _ =>
    match w.g_handler_stack_ with
    | some stack => (eraseAddr a stack).isEmpty
    | none => false
  | Op.deliver s i u o => passesSiginfoCheck s o w && !deliveryHandled s i u o w

/-- The `sigaction` failures met by the restore an operation may run. -/
def Op.restoreFails : Op → Int → Bool
  | Op.construct _ _ _ _ _ => fun _ => false
  | Op.destroy _ o => o.sigaction_set_fails
  | Op.deliver _ _ _ o => o.sigaction_set_fails

/-- An instance without a callback for directory `/data/a`. -/
def silentHandler : ExceptionHandler :=
  { addr := 1, callback_ := none, directory_ := "/data/a"
    path_ := "", c_path_ := none, fdes := none }

/-- A process without instances in which the marker of `/data/a` exists. -/
def busyWorld : World := idleWorld.setFiles ["/data/a/flagfile"]

/-- One instance with a callback, handlers installed, marker present. -/
def busyOneInstanceWorld : World :=
  ExceptionHandler.construct 1 "/data/a" (some echoCallback) true okInstall busyWorld

/-! ## More sample inputs -/

/-- A process with one registered instance in which other code has put the
dispatcher back for `SIGSEGV` with `signal()`: empty mask, no `SA_SIGINFO`. -/
def lostFlagWorld : World :=
  oneInstanceWorld.setDispositions
    (Function.update oneInstanceWorld.dispositions SIGSEGV
      ⟨SigHandler.SignalHandler, [], SA_RESTART⟩)

/-- A constructor run in which reading the disposition of `SIGABRT` (index 1 of
the handled signals) fails and every other system call succeeds. -/
def abrtReadFails : InstallOracle :=
  { sigaltstack_get_fails := false, sigaltstack_set_fails := false, calloc := 4096
    sigaction_get_fails := fun s => s == SIGABRT, sigaction_set_fails := fun _ => false }

/-- The instance built by the constructor for the object at `addr`. -/
def newInstance (addr : Nat) (directory : String) (callback : Option DumpCallback) :
    ExceptionHandler :=
  { addr := addr, callback_ := callback, directory_ := directory,
    path_ := "", c_path_ := none, fdes := none }

/-- The `wait` events among some events. -/
def waits : List Event → List Int
  | [] => []
  | Event.waitpid c :: es => c :: waits es
  | _ :: es => waits es

/-- The descriptors closed among some events, in order. -/
def closes : List Event → List Int
  | [] => []
  | Event.close fd :: es => fd :: closes es
  | _ :: es => closes es

/-! ## The dispatcher loop with its visits -/

/-- The decimal digit of the units of `n`, as a character. -/
def digit (n : Nat) : Char := Char.ofNat (48 + n % 10)

/-- Following the specification: the 14 decimal digits `YYYYMMDDHHMMSS` of a
broken-down time, with month, day, hour, minute and second padded with zeros
to two digits. -/
def spec_timestamp (t : tm) : String :=
  String.mk
    [digit ((t.tm_year + 1900) / 1000), digit ((t.tm_year + 1900) / 100),
     digit ((t.tm_year + 1900) / 10), digit (t.tm_year + 1900),
     digit ((t.tm_mon + 1) / 10), digit (t.tm_mon + 1),
     digit (t.tm_mday / 10), digit t.tm_mday,
     digit (t.tm_hour / 10), digit t.tm_hour,
     digit (t.tm_min / 10), digit t.tm_min,
     digit (t.tm_sec / 10), digit t.tm_sec]

/-- The ranges of the fields of a broken-down time as `localtime_r` fills them. -/
def tm.inRange (t : tm) : Prop :=
  t.tm_sec ≤ 60 ∧ t.tm_min ≤ 59 ∧ t.tm_hour ≤ 23 ∧ 1 ≤ t.tm_mday ∧ t.tm_mday ≤ 31
    ∧ t.tm_mon ≤ 11

/-! ## The tracer child -/

/-- A `struct ThreadArgument`; `context` is the record the pointer refers to
in the memory of the child. -/
structure ThreadArgument where
  pid : Int
  handler : ExceptionHandler
  context : CrashContext
  context_size : Nat
  path : String

/-- The arguments of one call
`engrave_tombstone(pid, tid, signal, abort_msg_address, uc, path)`. -/
structure TombstoneCall where
  pid : Int
  tid : Int
  signal : Int
  abort_msg_address : Nat
  uc : ucontext
  path : String
deriving DecidableEq, Repr

/-- Calls made by the tracer child, in program order. -/
inductive ChildEvent where
  | read (fd : Option Int)
  | engrave_tombstone (call : TombstoneCall)
deriving DecidableEq, Repr

/-- `ExceptionHandler::WaitForContinueSignal`: one read on `fdes[0]`. -/
def ExceptionHandler.WaitForContinueSignal (h : ExceptionHandler) : List ChildEvent :=
  [ChildEvent.read (h.fdes.map Prod.fst)]

/-- `ExceptionHandler::DoDump`; `engrave_tombstone` is the tombstone writer and
`w` the memory of the child, from which the global `signal` is read. -/
def ExceptionHandler.DoDump (_h : ExceptionHandler) (engrave_tombstone : TombstoneCall → Bool)
    (crashing_process : Int) (context : CrashContext) (_context_size : Nat) (path : String)
    (w : World) : Bool × List ChildEvent :=
  let call : TombstoneCall :=
    { pid := crashing_process, tid := context.tid, signal := w.signal,
      abort_msg_address := 0, uc := context.context, path := path }
  (engrave_tombstone call, [ChildEvent.engrave_tombstone call])

/-- `ExceptionHandler::ThreadEntry`: the exit status of the child and its calls. -/
def ExceptionHandler.ThreadEntry (engrave_tombstone : TombstoneCall → Bool)
    (thread_arg : ThreadArgument) (w : World) : Int × List ChildEvent :=
  let ev1 := thread_arg.handler.WaitForContinueSignal
  let r := thread_arg.handler.DoDump engrave_tombstone thread_arg.pid thread_arg.context
    thread_arg.context_size thread_arg.path w
  ((if r.1 == false then 1 else 0), ev1 ++ r.2)

/-- The calls of the tombstone writer among the calls of the child. -/
def tombstoneCalls : List ChildEvent → List TombstoneCall
  | [] => []
  | ChildEvent.engrave_tombstone c :: es => c :: tombstoneCalls es
  | _ :: es => tombstoneCalls es

end google_breakpad

/-! # `corkscrew/demangle.c` -/

namespace corkscrew

end corkscrew

/-! # `debuggerd/utility.c` -/

namespace debuggerd

/-- One call `write(fd, buf + offset, count)` with the value it returned
(after `TEMP_FAILURE_RETRY`). -/
structure WriteCall where
  offset : Int
  count : Int
  written : Int
deriving DecidableEq, Repr

/-- The loop of `write_to_am`.  `write k count` is what the call number `k`
returns when asked for `count` bytes; `fuel` bounds the number of iterations,
and the result is `none` when it runs out. -/
def write_to_am.loop (write : Nat → Int → Int) (len : Int) :
    Nat → Nat → Int → List WriteCall → Option (Int × List WriteCall)
  | 0, _, to_write, calls => if to_write > 0 then none else some (len, calls)
  | fuel + 1, k, to_write, calls =>
    if to_write > 0 then
      let written := write k to_write
      let calls1 := calls ++ [{ offset := len - to_write, count := to_write, written := written }]
      if written < 0 then some (-1, calls1)
      else write_to_am.loop write len fuel (k + 1) (to_write - written) calls1
    else some (len, calls)

/-- `write_to_am(fd, buf, len)`: the value returned and the calls of `write`. -/
def write_to_am (write : Nat → Int → Int) (len : Int) (fuel : Nat) :
    Option (Int × List WriteCall) :=
  write_to_am.loop write len fuel 0 len []

/-- The bytes of `buf` taken by the calls: for each call the first `written`
bytes from its offset, one call after the other. -/
def consumed (buf : List Nat) : List WriteCall → List Nat
  | [] => []
  | c :: cs => (buf.drop c.offset.toNat).take c.written.toNat ++ consumed buf cs

/-- Each call starts at `offset` and asks for everything up to `len`, and the
next call starts where this one stopped. -/
def chained (len : Int) : Int → List WriteCall → Prop
  | _, [] => True
  | offset, c :: cs => c.offset = offset ∧ c.count = len - offset
      ∧ chained len (offset + c.written) cs

end debuggerd

/-! # `native_crash_capture.cpp` -/

namespace native_jnicrash

/-- A `struct callbackPara`; `file_path` is `none` for a pointer that was never
assigned. -/
structure callbackPara where
  file_path : Option String
  type : Int
deriving DecidableEq, Repr

/-- Calls made by `dump_callback` and by the thread it starts, in order. -/
inductive Event where
  | pthread_create (para : callbackPara) (ret : Int)
  | AttachCurrentThread
  | GetStaticMethodID (name : String)
  | CallStaticVoidMethod (method : String) (arg : Option String)
  | DetachCurrentThread
  | pthread_join
deriving DecidableEq, Repr

/-- What the outside answers during one call: the value returned by
`pthread_create` and whether `GetStaticMethodID` finds the method. -/
structure Oracle where
  pthread_create : Int
  method_found : Bool

/-- `do_call_back`, the body of the notification thread: the calls it makes and
the value it returns.  The function is declared `void *` and no path through
its body has a `return` statement: control flows off its end after
`DetachCurrentThread`, so the second component is `none` on every path. -/
def do_call_back (call_para : callbackPara) (o : Oracle) : List Event × Option Nat :=
  let body :=
    if call_para.type == 1 then
      [Event.GetStaticMethodID "crashDumpEnd"]
        ++ (if o.method_found then
              [Event.CallStaticVoidMethod "crashDumpEnd" call_para.file_path]
            else [])
    else
      [Event.GetStaticMethodID "crashDumpBegin"]
        ++ (if o.method_found then
              (if call_para.type == 0 then
                [Event.CallStaticVoidMethod "crashDumpBegin" (some "0")]
               else [Event.CallStaticVoidMethod "crashDumpBegin" (some "1")])
            else [])
  ([Event.AttachCurrentThread] ++ body ++ [Event.DetachCurrentThread], none)

/-- `dump_callback`: the value returned and the calls made, those of the
notification thread included.  The result is `none` when the behaviour is
undefined: the thread was created and its body flowed off the end of a
value-returning function, so nothing says that the thread ends, that
`pthread_join` returns, or what the caller gets. -/
def dump_callback (type : Int) (path : Option String) (succeeded : Bool) (o : Oracle) :
    Option (Bool × List Event) :=
  if type != 1 || succeeded then
    let para : callbackPara := { file_path := path, type := type }
    let ret := o.pthread_create
    if ret != 0 then some (false, [Event.pthread_create para ret])
    else
      match do_call_back para o with
      | (calls, some _) =>
        some (succeeded, [Event.pthread_create para ret] ++ calls ++ [Event.pthread_join])
      | (_, none) => none
  else some (succeeded, [])

end native_jnicrash

namespace google_breakpad

/-! ## Projections of the state updates -/

@[simp]
theorem World.emit_dispositions (w : World) (e : Event) :
    (w.emit e).dispositions = w.dispositions := rfl

@[simp]
theorem World.emit_altstack (w : World) (e : Event) : (w.emit e).altstack = w.altstack := rfl

@[simp]
theorem World.emit_files (w : World) (e : Event) : (w.emit e).files = w.files := rfl

@[simp]
theorem World.emit_old_handlers (w : World) (e : Event) :
    (w.emit e).old_handlers = w.old_handlers := rfl

@[simp]
theorem World.emit_handlers_installed (w : World) (e : Event) :
    (w.emit e).handlers_installed = w.handlers_installed := rfl

@[simp]
theorem World.emit_old_stack (w : World) (e : Event) : (w.emit e).old_stack = w.old_stack := rfl

@[simp]
theorem World.emit_new_stack (w : World) (e : Event) : (w.emit e).new_stack = w.new_stack := rfl

@[simp]
theorem World.emit_stack_installed (w : World) (e : Event) :
    (w.emit e).stack_installed = w.stack_installed := rfl

@[simp]
theorem World.emit_g_handler_stack_ (w : World) (e : Event) :
    (w.emit e).g_handler_stack_ = w.g_handler_stack_ := rfl

@[simp]
theorem World.emit_g_crash_context_ (w : World) (e : Event) :
    (w.emit e).g_crash_context_ = w.g_crash_context_ := rfl

@[simp]
theorem World.emit_signal (w : World) (e : Event) : (w.emit e).signal = w.signal := rfl

@[simp]
theorem World.emit_trace (w : World) (e : Event) : (w.emit e).trace = w.trace ++ [e] := rfl

@[simp]
theorem World.setDispositions_dispositions (w : World) (d : Int → SigAction) :
    (w.setDispositions d).dispositions = d := rfl

@[simp]
theorem World.setDispositions_altstack (w : World) (d : Int → SigAction) :
    (w.setDispositions d).altstack = w.altstack := rfl

@[simp]
theorem World.setDispositions_files (w : World) (d : Int → SigAction) :
    (w.setDispositions d).files = w.files := rfl

@[simp]
theorem World.setDispositions_old_handlers (w : World) (d : Int → SigAction) :
    (w.setDispositions d).old_handlers = w.old_handlers := rfl

@[simp]
theorem World.setDispositions_handlers_installed (w : World) (d : Int → SigAction) :
    (w.setDispositions d).handlers_installed = w.handlers_installed := rfl

@[simp]
theorem World.setDispositions_old_stack (w : World) (d : Int → SigAction) :
    (w.setDispositions d).old_stack = w.old_stack := rfl

@[simp]
theorem World.setDispositions_new_stack (w : World) (d : Int → SigAction) :
    (w.setDispositions d).new_stack = w.new_stack := rfl

@[simp]
theorem World.setDispositions_stack_installed (w : World) (d : Int → SigAction) :
    (w.setDispositions d).stack_installed = w.stack_installed := rfl

@[simp]
theorem World.setDispositions_g_handler_stack_ (w : World) (d : Int → SigAction) :
    (w.setDispositions d).g_handler_stack_ = w.g_handler_stack_ := rfl

@[simp]
theorem World.setDispositions_g_crash_context_ (w : World) (d : Int → SigAction) :
    (w.setDispositions d).g_crash_context_ = w.g_crash_context_ := rfl

@[simp]
theorem World.setDispositions_signal (w : World) (d : Int → SigAction) :
    (w.setDispositions d).signal = w.signal := rfl

@[simp]
theorem World.setDispositions_trace (w : World) (d : Int → SigAction) :
    (w.setDispositions d).trace = w.trace := rfl

@[simp]
theorem World.setFiles_dispositions (w : World) (fs : List String) :
    (w.setFiles fs).dispositions = w.dispositions := rfl

@[simp]
theorem World.setFiles_altstack (w : World) (fs : List String) :
    (w.setFiles fs).altstack = w.altstack := rfl

@[simp]
theorem World.setFiles_files (w : World) (fs : List String) : (w.setFiles fs).files = fs := rfl

@[simp]
theorem World.setFiles_old_handlers (w : World) (fs : List String) :
    (w.setFiles fs).old_handlers = w.old_handlers := rfl

@[simp]
theorem World.setFiles_handlers_installed (w : World) (fs : List String) :
    (w.setFiles fs).handlers_installed = w.handlers_installed := rfl

@[simp]
theorem World.setFiles_old_stack (w : World) (fs : List String) :
    (w.setFiles fs).old_stack = w.old_stack := rfl

@[simp]
theorem World.setFiles_new_stack (w : World) (fs : List String) :
    (w.setFiles fs).new_stack = w.new_stack := rfl

@[simp]
theorem World.setFiles_stack_installed (w : World) (fs : List String) :
    (w.setFiles fs).stack_installed = w.stack_installed := rfl

@[simp]
theorem World.setFiles_g_handler_stack_ (w : World) (fs : List String) :
    (w.setFiles fs).g_handler_stack_ = w.g_handler_stack_ := rfl

@[simp]
theorem World.setFiles_g_crash_context_ (w : World) (fs : List String) :
    (w.setFiles fs).g_crash_context_ = w.g_crash_context_ := rfl

@[simp]
theorem World.setFiles_signal (w : World) (fs : List String) :
    (w.setFiles fs).signal = w.signal := rfl

@[simp]
theorem World.setFiles_trace (w : World) (fs : List String) : (w.setFiles fs).trace = w.trace := rfl

@[simp]
theorem World.setOldHandlers_dispositions (w : World) (old : Nat → SigAction) :
    (w.setOldHandlers old).dispositions = w.dispositions := rfl

@[simp]
theorem World.setOldHandlers_altstack (w : World) (old : Nat → SigAction) :
    (w.setOldHandlers old).altstack = w.altstack := rfl

@[simp]
theorem World.setOldHandlers_files (w : World) (old : Nat → SigAction) :
    (w.setOldHandlers old).files = w.files := rfl

@[simp]
theorem World.setOldHandlers_old_handlers (w : World) (old : Nat → SigAction) :
    (w.setOldHandlers old).old_handlers = old := rfl

@[simp]
theorem World.setOldHandlers_handlers_installed (w : World) (old : Nat → SigAction) :
    (w.setOldHandlers old).handlers_installed = w.handlers_installed := rfl

@[simp]
theorem World.setOldHandlers_old_stack (w : World) (old : Nat → SigAction) :
    (w.setOldHandlers old).old_stack = w.old_stack := rfl

@[simp]
theorem World.setOldHandlers_new_stack (w : World) (old : Nat → SigAction) :
    (w.setOldHandlers old).new_stack = w.new_stack := rfl

@[simp]
theorem World.setOldHandlers_stack_installed (w : World) (old : Nat → SigAction) :
    (w.setOldHandlers old).stack_installed = w.stack_installed := rfl

@[simp]
theorem World.setOldHandlers_g_handler_stack_ (w : World) (old : Nat → SigAction) :
    (w.setOldHandlers old).g_handler_stack_ = w.g_handler_stack_ := rfl

@[simp]
theorem World.setOldHandlers_g_crash_context_ (w : World) (old : Nat → SigAction) :
    (w.setOldHandlers old).g_crash_context_ = w.g_crash_context_ := rfl

@[simp]
theorem World.setOldHandlers_signal (w : World) (old : Nat → SigAction) :
    (w.setOldHandlers old).signal = w.signal := rfl

@[simp]
theorem World.setOldHandlers_trace (w : World) (old : Nat → SigAction) :
    (w.setOldHandlers old).trace = w.trace := rfl

@[simp]
theorem World.setHandlersInstalled_dispositions (w : World) (b : Bool) :
    (w.setHandlersInstalled b).dispositions = w.dispositions := rfl

@[simp]
theorem World.setHandlersInstalled_altstack (w : World) (b : Bool) :
    (w.setHandlersInstalled b).altstack = w.altstack := rfl

@[simp]
theorem World.setHandlersInstalled_files (w : World) (b : Bool) :
    (w.setHandlersInstalled b).files = w.files := rfl

@[simp]
theorem World.setHandlersInstalled_old_handlers (w : World) (b : Bool) :
    (w.setHandlersInstalled b).old_handlers = w.old_handlers := rfl

@[simp]
theorem World.setHandlersInstalled_handlers_installed (w : World) (b : Bool) :
    (w.setHandlersInstalled b).handlers_installed = b := rfl

@[simp]
theorem World.setHandlersInstalled_old_stack (w : World) (b : Bool) :
    (w.setHandlersInstalled b).old_stack = w.old_stack := rfl

@[simp]
theorem World.setHandlersInstalled_new_stack (w : World) (b : Bool) :
    (w.setHandlersInstalled b).new_stack = w.new_stack := rfl

@[simp]
theorem World.setHandlersInstalled_stack_installed (w : World) (b : Bool) :
    (w.setHandlersInstalled b).stack_installed = w.stack_installed := rfl

@[simp]
theorem World.setHandlersInstalled_g_handler_stack_ (w : World) (b : Bool) :
    (w.setHandlersInstalled b).g_handler_stack_ = w.g_handler_stack_ := rfl

@[simp]
theorem World.setHandlersInstalled_g_crash_context_ (w : World) (b : Bool) :
    (w.setHandlersInstalled b).g_crash_context_ = w.g_crash_context_ := rfl

@[simp]
theorem World.setHandlersInstalled_signal (w : World) (b : Bool) :
    (w.setHandlersInstalled b).signal = w.signal := rfl

@[simp]
theorem World.setHandlersInstalled_trace (w : World) (b : Bool) :
    (w.setHandlersInstalled b).trace = w.trace := rfl

@[simp]
theorem World.setHandlerStack_dispositions (w : World) (st : Option (List ExceptionHandler)) :
    (w.setHandlerStack st).dispositions = w.dispositions := rfl

@[simp]
theorem World.setHandlerStack_altstack (w : World) (st : Option (List ExceptionHandler)) :
    (w.setHandlerStack st).altstack = w.altstack := rfl

@[simp]
theorem World.setHandlerStack_files (w : World) (st : Option (List ExceptionHandler)) :
    (w.setHandlerStack st).files = w.files := rfl

@[simp]
theorem World.setHandlerStack_old_handlers (w : World) (st : Option (List ExceptionHandler)) :
    (w.setHandlerStack st).old_handlers = w.old_handlers := rfl

@[simp]
theorem World.setHandlerStack_handlers_installed (w : World) (st : Option (List ExceptionHandler)) :
    (w.setHandlerStack st).handlers_installed = w.handlers_installed := rfl

@[simp]
theorem World.setHandlerStack_old_stack (w : World) (st : Option (List ExceptionHandler)) :
    (w.setHandlerStack st).old_stack = w.old_stack := rfl

@[simp]
theorem World.setHandlerStack_new_stack (w : World) (st : Option (List ExceptionHandler)) :
    (w.setHandlerStack st).new_stack = w.new_stack := rfl

@[simp]
theorem World.setHandlerStack_stack_installed (w : World) (st : Option (List ExceptionHandler)) :
    (w.setHandlerStack st).stack_installed = w.stack_installed := rfl

@[simp]
theorem World.setHandlerStack_g_handler_stack_ (w : World) (st : Option (List ExceptionHandler)) :
    (w.setHandlerStack st).g_handler_stack_ = st := rfl

@[simp]
theorem World.setHandlerStack_g_crash_context_ (w : World) (st : Option (List ExceptionHandler)) :
    (w.setHandlerStack st).g_crash_context_ = w.g_crash_context_ := rfl

@[simp]
theorem World.setHandlerStack_signal (w : World) (st : Option (List ExceptionHandler)) :
    (w.setHandlerStack st).signal = w.signal := rfl

@[simp]
theorem World.setHandlerStack_trace (w : World) (st : Option (List ExceptionHandler)) :
    (w.setHandlerStack st).trace = w.trace := rfl

@[simp]
theorem World.setCrashContext_dispositions (w : World) (c : CrashContext) :
    (w.setCrashContext c).dispositions = w.dispositions := rfl

@[simp]
theorem World.setCrashContext_altstack (w : World) (c : CrashContext) :
    (w.setCrashContext c).altstack = w.altstack := rfl

@[simp]
theorem World.setCrashContext_files (w : World) (c : CrashContext) :
    (w.setCrashContext c).files = w.files := rfl

@[simp]
theorem World.setCrashContext_old_handlers (w : World) (c : CrashContext) :
    (w.setCrashContext c).old_handlers = w.old_handlers := rfl

@[simp]
theorem World.setCrashContext_handlers_installed (w : World) (c : CrashContext) :
    (w.setCrashContext c).handlers_installed = w.handlers_installed := rfl

@[simp]
theorem World.setCrashContext_old_stack (w : World) (c : CrashContext) :
    (w.setCrashContext c).old_stack = w.old_stack := rfl

@[simp]
theorem World.setCrashContext_new_stack (w : World) (c : CrashContext) :
    (w.setCrashContext c).new_stack = w.new_stack := rfl

@[simp]
theorem World.setCrashContext_stack_installed (w : World) (c : CrashContext) :
    (w.setCrashContext c).stack_installed = w.stack_installed := rfl

@[simp]
theorem World.setCrashContext_g_handler_stack_ (w : World) (c : CrashContext) :
    (w.setCrashContext c).g_handler_stack_ = w.g_handler_stack_ := rfl

@[simp]
theorem World.setCrashContext_g_crash_context_ (w : World) (c : CrashContext) :
    (w.setCrashContext c).g_crash_context_ = c := rfl

@[simp]
theorem World.setCrashContext_signal (w : World) (c : CrashContext) :
    (w.setCrashContext c).signal = w.signal := rfl

@[simp]
theorem World.setCrashContext_trace (w : World) (c : CrashContext) :
    (w.setCrashContext c).trace = w.trace := rfl

@[simp]
theorem World.setSignal_dispositions (w : World) (sig : Int) :
    (w.setSignal sig).dispositions = w.dispositions := rfl

@[simp]
theorem World.setSignal_altstack (w : World) (sig : Int) :
    (w.setSignal sig).altstack = w.altstack := rfl

@[simp]
theorem World.setSignal_files (w : World) (sig : Int) : (w.setSignal sig).files = w.files := rfl

@[simp]
theorem World.setSignal_old_handlers (w : World) (sig : Int) :
    (w.setSignal sig).old_handlers = w.old_handlers := rfl

@[simp]
theorem World.setSignal_handlers_installed (w : World) (sig : Int) :
    (w.setSignal sig).handlers_installed = w.handlers_installed := rfl

@[simp]
theorem World.setSignal_old_stack (w : World) (sig : Int) :
    (w.setSignal sig).old_stack = w.old_stack := rfl

@[simp]
theorem World.setSignal_new_stack (w : World) (sig : Int) :
    (w.setSignal sig).new_stack = w.new_stack := rfl

@[simp]
theorem World.setSignal_stack_installed (w : World) (sig : Int) :
    (w.setSignal sig).stack_installed = w.stack_installed := rfl

@[simp]
theorem World.setSignal_g_handler_stack_ (w : World) (sig : Int) :
    (w.setSignal sig).g_handler_stack_ = w.g_handler_stack_ := rfl

@[simp]
theorem World.setSignal_g_crash_context_ (w : World) (sig : Int) :
    (w.setSignal sig).g_crash_context_ = w.g_crash_context_ := rfl

@[simp]
theorem World.setSignal_signal (w : World) (sig : Int) : (w.setSignal sig).signal = sig := rfl

@[simp]
theorem World.setSignal_trace (w : World) (sig : Int) : (w.setSignal sig).trace = w.trace := rfl

@[simp]
theorem World.emitIf_dispositions (w : World) (c : Bool) (e : Event) :
    (w.emitIf c e).dispositions = w.dispositions := by
  cases c <;> rfl

@[simp]
theorem World.invoke_dispositions (w : World) (cb : Option DumpCallback) (t : Int)
    (p : Option String) (s : Bool) : (w.invoke cb t p s).dispositions = w.dispositions := by
  cases cb <;> rfl

@[simp]
theorem World.emitIf_altstack (w : World) (c : Bool) (e : Event) :
    (w.emitIf c e).altstack = w.altstack := by
  cases c <;> rfl

@[simp]
theorem World.invoke_altstack (w : World) (cb : Option DumpCallback) (t : Int)
    (p : Option String) (s : Bool) : (w.invoke cb t p s).altstack = w.altstack := by
  cases cb <;> rfl

@[simp]
theorem World.emitIf_files (w : World) (c : Bool) (e : Event) :
    (w.emitIf c e).files = w.files := by
  cases c <;> rfl

@[simp]
theorem World.invoke_files (w : World) (cb : Option DumpCallback) (t : Int)
    (p : Option String) (s : Bool) : (w.invoke cb t p s).files = w.files := by
  cases cb <;> rfl

@[simp]
theorem World.emitIf_old_handlers (w : World) (c : Bool) (e : Event) :
    (w.emitIf c e).old_handlers = w.old_handlers := by
  cases c <;> rfl

@[simp]
theorem World.invoke_old_handlers (w : World) (cb : Option DumpCallback) (t : Int)
    (p : Option String) (s : Bool) : (w.invoke cb t p s).old_handlers = w.old_handlers := by
  cases cb <;> rfl

@[simp]
theorem World.emitIf_handlers_installed (w : World) (c : Bool) (e : Event) :
    (w.emitIf c e).handlers_installed = w.handlers_installed := by
  cases c <;> rfl

@[simp]
theorem World.invoke_handlers_installed (w : World) (cb : Option DumpCallback) (t : Int)
    (p : Option String) (s : Bool) : (w.invoke cb t p s).handlers_installed = w.handlers_installed := by
  cases cb <;> rfl

@[simp]
theorem World.emitIf_old_stack (w : World) (c : Bool) (e : Event) :
    (w.emitIf c e).old_stack = w.old_stack := by
  cases c <;> rfl

@[simp]
theorem World.invoke_old_stack (w : World) (cb : Option DumpCallback) (t : Int)
    (p : Option String) (s : Bool) : (w.invoke cb t p s).old_stack = w.old_stack := by
  cases cb <;> rfl

@[simp]
theorem World.emitIf_new_stack (w : World) (c : Bool) (e : Event) :
    (w.emitIf c e).new_stack = w.new_stack := by
  cases c <;> rfl

@[simp]
theorem World.invoke_new_stack (w : World) (cb : Option DumpCallback) (t : Int)
    (p : Option String) (s : Bool) : (w.invoke cb t p s).new_stack = w.new_stack := by
  cases cb <;> rfl

@[simp]
theorem World.emitIf_stack_installed (w : World) (c : Bool) (e : Event) :
    (w.emitIf c e).stack_installed = w.stack_installed := by
  cases c <;> rfl

@[simp]
theorem World.invoke_stack_installed (w : World) (cb : Option DumpCallback) (t : Int)
    (p : Option String) (s : Bool) : (w.invoke cb t p s).stack_installed = w.stack_installed := by
  cases cb <;> rfl

@[simp]
theorem World.emitIf_g_handler_stack_ (w : World) (c : Bool) (e : Event) :
    (w.emitIf c e).g_handler_stack_ = w.g_handler_stack_ := by
  cases c <;> rfl

@[simp]
theorem World.invoke_g_handler_stack_ (w : World) (cb : Option DumpCallback) (t : Int)
    (p : Option String) (s : Bool) : (w.invoke cb t p s).g_handler_stack_ = w.g_handler_stack_ := by
  cases cb <;> rfl

@[simp]
theorem World.emitIf_g_crash_context_ (w : World) (c : Bool) (e : Event) :
    (w.emitIf c e).g_crash_context_ = w.g_crash_context_ := by
  cases c <;> rfl

@[simp]
theorem World.invoke_g_crash_context_ (w : World) (cb : Option DumpCallback) (t : Int)
    (p : Option String) (s : Bool) : (w.invoke cb t p s).g_crash_context_ = w.g_crash_context_ := by
  cases cb <;> rfl

@[simp]
theorem World.emitIf_signal (w : World) (c : Bool) (e : Event) :
    (w.emitIf c e).signal = w.signal := by
  cases c <;> rfl

@[simp]
theorem World.invoke_signal (w : World) (cb : Option DumpCallback) (t : Int)
    (p : Option String) (s : Bool) : (w.invoke cb t p s).signal = w.signal := by
  cases cb <;> rfl

@[simp]
theorem World.emitIf_trace (w : World) (c : Bool) (e : Event) :
    (w.emitIf c e).trace = w.trace ++ (if c then [e] else []) := by
  cases c <;> simp [World.emitIf]

@[simp]
theorem World.invoke_trace (w : World) (cb : Option DumpCallback) (t : Int)
    (p : Option String) (s : Bool) :
    (w.invoke cb t p s).trace
      = w.trace ++ (if cb.isSome then [Event.callback t p s] else []) := by
  cases cb <;> simp [World.invoke]

/-! ## The dump orchestrator: what one call changes -/

theorem SameHandlers.refl (w : World) : SameHandlers w w := ⟨rfl, rfl, rfl, rfl⟩

theorem SameHandlers.trans {w w2 w3 : World} (h1 : SameHandlers w w2) (h2 : SameHandlers w2 w3) :
    SameHandlers w w3 :=
  ⟨h2.1.trans h1.1, h2.2.trans h1.2, h2.3.trans h1.3, h2.4.trans h1.4⟩

theorem emitted_append (w w2 : World) (es : List Event) (h : w2.trace = w.trace ++ es) :
    emitted w w2 = es := by
  simp [emitted, h]

theorem GenerateDump_returns_false (h : ExceptionHandler) (o : DumpOracle) (w : World) :
    (h.GenerateDump o w).1 = false := by
  unfold ExceptionHandler.GenerateDump
  split
  · rfl
  · simp only []
    split <;> rfl

theorem HandleSignal_returns_false (h : ExceptionHandler) (sig : Int) (info : siginfo_t)
    (uc : ucontext) (o : DumpOracle) (w : World) :
    (h.HandleSignal sig info uc o w).1 = false := by
  unfold ExceptionHandler.HandleSignal
  split
  · rfl
  · exact GenerateDump_returns_false _ _ _

theorem GenerateDump_trace (h : ExceptionHandler) (o : DumpOracle) (w : World) :
    (h.GenerateDump o w).2.2.trace = w.trace ++ GenerateDump.events h o := by
  unfold ExceptionHandler.GenerateDump GenerateDump.events
  split
  · simp
  · simp only []
    split <;> simp

theorem GenerateDump_same (h : ExceptionHandler) (o : DumpOracle) (w : World) :
    SameHandlers w (h.GenerateDump o w).2.2 := by
  unfold ExceptionHandler.GenerateDump
  split
  · exact SameHandlers.refl w
  · simp only []
    split <;> constructor <;> simp

theorem CheckHandlerValid_busy (h : ExceptionHandler) (o : DumpOracle) (w : World)
    (hm : h.directory_ ++ "/" ++ FLAG_FILE ∈ w.files) :
    h.CheckHandlerValid o w = (false, w) := by
  simp [ExceptionHandler.CheckHandlerValid, hm]

theorem CheckHandlerValid_idle (h : ExceptionHandler) (o : DumpOracle) (w : World)
    (hm : h.directory_ ++ "/" ++ FLAG_FILE ∉ w.files) :
    h.CheckHandlerValid o w = (true,
      if o.fopen_w_ok then
        (w.setFiles ((h.directory_ ++ "/" ++ FLAG_FILE) :: w.files)).emit
          (Event.fclose (some (h.directory_ ++ "/" ++ FLAG_FILE)))
      else w.emit (Event.fclose none)) := by
  unfold ExceptionHandler.CheckHandlerValid
  simp only [hm, if_false]
  split <;> rfl

theorem HandleSignal_trace (h : ExceptionHandler) (sig : Int) (info : siginfo_t)
    (uc : ucontext) (o : DumpOracle) (w : World) :
    (h.HandleSignal sig info uc o w).2.2.trace = w.trace ++ HandleSignal.events h info o w := by
  unfold ExceptionHandler.HandleSignal HandleSignal.events
  by_cases hm : h.directory_ ++ "/" ++ FLAG_FILE ∈ w.files
  · rw [CheckHandlerValid_busy h o w hm]
    simp [hm]
  · rw [CheckHandlerValid_idle h o w hm]
    simp only [hm, if_false, GenerateDump_trace]
    cases o.fopen_w_ok <;> simp

theorem HandleSignal_same (h : ExceptionHandler) (sig : Int) (info : siginfo_t)
    (uc : ucontext) (o : DumpOracle) (w : World) :
    SameHandlers w (h.HandleSignal sig info uc o w).2.2 := by
  unfold ExceptionHandler.HandleSignal
  by_cases hm : h.directory_ ++ "/" ++ FLAG_FILE ∈ w.files
  · rw [CheckHandlerValid_busy h o w hm]
    constructor <;> simp
  · rw [CheckHandlerValid_idle h o w hm]
    refine SameHandlers.trans ?_ (GenerateDump_same _ _ _)
    cases o.fopen_w_ok <;> constructor <;> simp

theorem GenerateDump_events_fromDump (h : ExceptionHandler) (o : DumpOracle) :
    ∀ e ∈ GenerateDump.events h o, e.fromDump = true := by
  intro e he
  unfold GenerateDump.events at he
  simp only [] at he
  split at he
  · simp at he
  · split at he
    · simp at he
      rcases he with rfl | rfl | rfl <;> rfl
    · simp at he
      rcases he with rfl | rfl | rfl | rfl | rfl | rfl | ⟨_, rfl⟩ | ⟨_, rfl⟩ | rfl <;> rfl

theorem HandleSignal_events_fromDump (h : ExceptionHandler) (info : siginfo_t) (o : DumpOracle)
    (w : World) : ∀ e ∈ HandleSignal.events h info o w, e.fromDump = true := by
  intro e he
  unfold HandleSignal.events at he
  simp only [] at he
  split at he
  · split at he
    · simp at he
      subst he
      rfl
    · simp at he
  · simp only [List.mem_append, List.mem_singleton] at he
    rcases he with ((rfl | he) | he) | he
    · rfl
    · split at he
      · simp at he
        subst he
        rfl
      · simp at he
    · split at he
      · simp at he
        subst he
        rfl
      · simp at he
    · exact GenerateDump_events_fromDump h o e he

/-! ## The dispatcher loop -/

theorem SignalHandler_loop_spec (sig : Int) (info : siginfo_t) (uc : ucontext)
    (dump : Nat → DumpOracle) :
    ∀ (n : Nat) (stack : List ExceptionHandler) (w : World),
      (SignalHandler.loop sig info uc dump n stack w).1 = false
      ∧ SameHandlers w (SignalHandler.loop sig info uc dump n stack w).2.2
      ∧ ∃ es, (SignalHandler.loop sig info uc dump n stack w).2.2.trace = w.trace ++ es
          ∧ ∀ e ∈ es, e.fromDump = true := by
  intro n
  induction n with
  | zero =>
    intro stack w
    exact ⟨rfl, SameHandlers.refl w, [], by simp [SignalHandler.loop], by simp⟩
  | succ i ih =>
    intro stack w
    unfold SignalHandler.loop
    cases hget : stack[i]? with
    | none => exact ⟨rfl, SameHandlers.refl w, [], by simp, by simp⟩
    | some h =>
      have hfalse := HandleSignal_returns_false h sig info uc (dump i) w
      have htrace := HandleSignal_trace h sig info uc (dump i) w
      have hsame := HandleSignal_same h sig info uc (dump i) w
      have hev := HandleSignal_events_fromDump h info (dump i) w
      rcases hr : h.HandleSignal sig info uc (dump i) w with ⟨b, h1, w1⟩
      rw [hr] at hfalse htrace hsame
      simp only at hfalse htrace hsame
      subst hfalse
      simp only [hr]
      obtain ⟨ih1, ih2, es, ih3, ih4⟩ := ih (stack.set i h1) w1
      refine ⟨ih1, SameHandlers.trans hsame ih2, HandleSignal.events h info (dump i) w ++ es, ?_, ?_⟩
      · rw [ih3, htrace, List.append_assoc]
      · intro e he
        rcases List.mem_append.mp he with he | he
        · exact hev e he
        · exact ih4 e he

/-! ## Restoring the dispositions -/

theorem handled_indices : List.range kNumHandledSignals = [0, 1, 2, 3, 4] := by decide

theorem restoreOne_eq (sf : Int → Bool) (w : World) (i : Nat) :
    restoreOne sf w i = w.setDispositions (Function.update w.dispositions
      (kExceptionSignals.getD i 0)
      (if sf (kExceptionSignals.getD i 0) then ⟨SigHandler.SIG_DFL, [], SA_RESTART⟩
       else w.old_handlers i)) := by
  unfold restoreOne InstallDefaultHandler
  simp only []
  split <;> rfl

theorem RestoreHandlersLocked_trace (sf : Int → Bool) (w : World) :
    (RestoreHandlersLocked sf w).trace = w.trace := by
  unfold RestoreHandlersLocked
  split
  · rfl
  · simp [handled_indices, List.foldl, restoreOne_eq]

theorem RestoreHandlersLocked_stack (sf : Int → Bool) (w : World) :
    (RestoreHandlersLocked sf w).g_handler_stack_ = w.g_handler_stack_ := by
  unfold RestoreHandlersLocked
  split
  · rfl
  · simp [handled_indices, List.foldl, restoreOne_eq]

theorem RestoreHandlersLocked_installed (sf : Int → Bool) (w : World) :
    (RestoreHandlersLocked sf w).handlers_installed = false := by
  unfold RestoreHandlersLocked
  split
  · next hn => simpa using hn
  · simp

theorem RestoreHandlersLocked_old_handlers (sf : Int → Bool) (w : World) :
    (RestoreHandlersLocked sf w).old_handlers = w.old_handlers := by
  unfold RestoreHandlersLocked
  split
  · rfl
  · simp [handled_indices, List.foldl, restoreOne_eq]

/-- After a restore that was due, every handled signal has its saved
disposition, or the default one where `sigaction` failed. -/
theorem RestoreHandlersLocked_dispositions (sf : Int → Bool) (w : World)
    (hinst : w.handlers_installed = true) (i : Nat) (hi : i < kNumHandledSignals) :
    (RestoreHandlersLocked sf w).dispositions (kExceptionSignals.getD i 0)
      = if sf (kExceptionSignals.getD i 0) then ⟨SigHandler.SIG_DFL, [], SA_RESTART⟩
        else w.old_handlers i := by
  unfold RestoreHandlersLocked
  simp only [hinst, Bool.not_true, Bool.false_eq_true, if_false, handled_indices, List.foldl,
    restoreOne_eq, World.setHandlersInstalled_dispositions, World.setDispositions_dispositions,
    World.setDispositions_old_handlers]
  have h5 : kNumHandledSignals = 5 := rfl
  rw [h5] at hi
  interval_cases i <;>
    simp [kExceptionSignals, SIGSEGV, SIGABRT, SIGFPE, SIGILL, SIGBUS, Function.update]

theorem InstallDefaultHandler_trace (sig : Int) (w : World) :
    (InstallDefaultHandler sig w).trace = w.trace := rfl

theorem reraise_trace (sig : Int) (info : siginfo_t) (o : SignalOracle) (w : World) :
    (SignalHandler.reraise sig info o w).trace = w.trace ++
      (if info.si_code ≤ 0 ∨ sig = SIGABRT then
        Event.tgkill o.getpid o.gettid sig :: (if o.tgkill < 0 then [Event._exit 1] else [])
       else []) := by
  unfold SignalHandler.reraise
  by_cases hc : info.si_code ≤ 0 ∨ sig = SIGABRT
  · have : (decide (info.si_code ≤ 0) || sig == SIGABRT) = true := by simpa using hc
    simp [this, hc]
  · have : (decide (info.si_code ≤ 0) || sig == SIGABRT) = false := by
      simpa [not_or] using hc
    simp [this, hc]

/-! ## Claims about one call of `HandleSignal` -/

/-- C4 (amended): when `{directory}/flagfile` exists on entry, `HandleSignal`
returns false; its only event is one callback call of type 2 (giveUp) when the
instance has a callback, and it has no event at all when the instance has no
callback; so there is no call of type 0 or 1 and no tracer child; the files
(the marker among them) and the crash context are unchanged. -/
theorem C4_marker_present_gives_up (h : ExceptionHandler) (sig : Int) (info : siginfo_t)
    (uc : ucontext) (o : DumpOracle) (w : World)
    (hmarker : h.directory_ ++ "/" ++ FLAG_FILE ∈ w.files) :
    (h.HandleSignal sig info uc o w).1 = false
    ∧ emitted w (h.HandleSignal sig info uc o w).2.2
        = (if h.callback_.isSome then [Event.callback 2 h.c_path_ false] else [])
    ∧ callbackCalls (emitted w (h.HandleSignal sig info uc o w).2.2)
        = (if h.callback_.isSome then [(2, h.c_path_, false)] else [])
    ∧ spawners (emitted w (h.HandleSignal sig info uc o w).2.2) = []
    ∧ (h.HandleSignal sig info uc o w).2.2.files = w.files
    ∧ h.directory_ ++ "/" ++ FLAG_FILE ∈ (h.HandleSignal sig info uc o w).2.2.files
    ∧ (h.HandleSignal sig info uc o w).2.2.g_crash_context_ = w.g_crash_context_ := by
  have hem : emitted w (h.HandleSignal sig info uc o w).2.2
      = (if h.callback_.isSome then [Event.callback 2 h.c_path_ false] else []) := by
    apply emitted_append
    rw [HandleSignal_trace]
    simp [HandleSignal.events, hmarker]
  have hfiles : (h.HandleSignal sig info uc o w).2.2.files = w.files := by
    unfold ExceptionHandler.HandleSignal
    rw [CheckHandlerValid_busy h o w hmarker]
    simp
  have hctx : (h.HandleSignal sig info uc o w).2.2.g_crash_context_ = w.g_crash_context_ := by
    unfold ExceptionHandler.HandleSignal
    rw [CheckHandlerValid_busy h o w hmarker]
    simp
  refine ⟨HandleSignal_returns_false _ _ _ _ _ _, hem, ?_, ?_, hfiles, ?_, hctx⟩
  · rw [hem]
    cases h.callback_ <;> simp [callbackCalls]
  · rw [hem]
    cases h.callback_ <;> simp [spawners]
  · rw [hfiles]
    exact hmarker

/-- C7: when the tracer child is spawned and the instance has a callback,
`GenerateDump` makes exactly one callback call, of type 1 (end), and its
succeeded flag is true if and only if the wait did not return -1, the status
says the child exited normally, and the exit status is 0. -/
theorem C7_end_callback_flag (h : ExceptionHandler) (cb : DumpCallback) (o : DumpOracle)
    (w : World) (hcb : h.callback_ = some cb) (halloc : o.alloc_ok = true)
    (hclone : o.clone ≠ -1) :
    ∃ path succeeded,
      callbackCalls (emitted w (h.GenerateDump o w).2.2) = [(1, some path, succeeded)]
      ∧ (succeeded = true ↔
          (HANDLE_EINTR_waitpid o.waits o.wait_last).r ≠ -1
          ∧ WIFEXITED (HANDLE_EINTR_waitpid o.waits o.wait_last).status = true
          ∧ WEXITSTATUS (HANDLE_EINTR_waitpid o.waits o.wait_last).status = 0) := by
  refine ⟨h.directory_ ++ "/" ++ (strftime 20 o.localtime).getD o.time_string_init,
    dumpSucceeded (HANDLE_EINTR_waitpid o.waits o.wait_last), ?_, ?_⟩
  · rw [emitted_append w _ _ (GenerateDump_trace h o w)]
    have hc : (o.clone == -1) = false := by simpa using hclone
    unfold GenerateDump.events
    simp only [halloc, hc, hcb, Option.isSome_some, Bool.not_true, Bool.false_eq_true, if_false,
      if_true]
    cases ((HANDLE_EINTR_waitpid o.waits o.wait_last).r == -1) <;> simp [callbackCalls]
  · simp [dumpSucceeded, and_assoc]

/-- Witness for C7: a tracer child that exits with status 0. -/
theorem C7_end_callback_flag_witness :
    ∃ path succeeded,
      callbackCalls (emitted idleWorld (freshHandler.GenerateDump okDump idleWorld).2.2)
        = [(1, some path, succeeded)]
      ∧ (succeeded = true ↔
          (HANDLE_EINTR_waitpid okDump.waits okDump.wait_last).r ≠ -1
          ∧ WIFEXITED (HANDLE_EINTR_waitpid okDump.waits okDump.wait_last).status = true
          ∧ WEXITSTATUS (HANDLE_EINTR_waitpid okDump.waits okDump.wait_last).status = 0) :=
  C7_end_callback_flag freshHandler echoCallback okDump idleWorld rfl rfl (by decide)

/-- C8: for a delivery that finds the `SA_SIGINFO` flag on the installed
disposition (and an allocated handler stack), `SignalHandler` returns; its
events are the lock, events of the instances (no unlock, no signal sent, no
exit), the unlock, and after the unlock: `tgkill(getpid, gettid, sig)` exactly
when `si_code <= 0` or `sig` is `SIGABRT`, followed by `_exit(1)` exactly when
that `tgkill` returned a negative value; otherwise nothing. -/
theorem C8_reraise_after_unlock (sig : Int) (info : siginfo_t) (uc : ucontext)
    (o : SignalOracle) (w : World) (stack : List ExceptionHandler)
    (hstack : w.g_handler_stack_ = some stack)
    (hflag : (w.dispositions sig).sa_flags &&& SA_SIGINFO ≠ 0) :
    ∃ w2 mid, ExceptionHandler.SignalHandler sig info uc o w = some w2
      ∧ (∀ e ∈ mid, e.fromDump = true)
      ∧ emitted w w2 = Event.lock :: mid ++ Event.unlock ::
          (if info.si_code ≤ 0 ∨ sig = SIGABRT then
            Event.tgkill o.getpid o.gettid sig :: (if o.tgkill < 0 then [Event._exit 1] else [])
           else []) := by
  have hcheck : (!o.sigaction_get_fails
      && ((w.emit Event.lock).dispositions sig).sa_flags &&& SA_SIGINFO == 0) = false := by
    simp [hflag]
  obtain ⟨hl1, hl2, mid, hl3, hl4⟩ :=
    SignalHandler_loop_spec sig info uc o.dump stack.length stack (w.emit Event.lock)
  rcases hr : SignalHandler.loop sig info uc o.dump stack.length stack (w.emit Event.lock)
    with ⟨handled, stack1, w1⟩
  rw [hr] at hl1 hl3
  simp only at hl1 hl3
  subst hl1
  refine ⟨SignalHandler.reraise sig info o
    ((RestoreHandlersLocked o.sigaction_set_fails (w1.setHandlerStack (some stack1))).emit
      Event.unlock), mid, ?_, hl4, ?_⟩
  · unfold ExceptionHandler.SignalHandler
    simp only [hcheck, World.emit_g_handler_stack_, hstack, hr, Bool.false_eq_true, if_false]
  · apply emitted_append
    rw [reraise_trace, World.emit_trace, RestoreHandlersLocked_trace,
      World.setHandlerStack_trace, hl3, World.emit_trace]
    simp

/-- Witness for C8: a hardware fault delivered to one registered instance. -/
theorem C8_reraise_after_unlock_witness :
    ∃ w2 mid, ExceptionHandler.SignalHandler SIGSEGV faultInfo emptyContext okSignal
        oneInstanceWorld = some w2
      ∧ (∀ e ∈ mid, e.fromDump = true)
      ∧ emitted oneInstanceWorld w2 = Event.lock :: mid ++ Event.unlock ::
          (if faultInfo.si_code ≤ 0 ∨ SIGSEGV = SIGABRT then
            Event.tgkill okSignal.getpid okSignal.gettid SIGSEGV ::
              (if okSignal.tgkill < 0 then [Event._exit 1] else [])
           else []) :=
  C8_reraise_after_unlock SIGSEGV faultInfo emptyContext okSignal oneInstanceWorld
    [freshHandler] (by rfl) (by decide)

/-! ## Installing the handlers -/

theorem InstallAlternateStackLocked_same (o : InstallOracle) (w : World) :
    SameHandlers w (InstallAlternateStackLocked o w)
    ∧ (InstallAlternateStackLocked o w).trace = w.trace := by
  unfold InstallAlternateStackLocked
  simp only []
  iterate 4 (all_goals (try split))
  all_goals exact ⟨⟨rfl, rfl, rfl, rfl⟩, rfl⟩

theorem RestoreAlternateStackLocked_same (o : RestoreOracle) (w : World) :
    SameHandlers w (RestoreAlternateStackLocked o w)
    ∧ (RestoreAlternateStackLocked o w).trace = w.trace := by
  unfold RestoreAlternateStackLocked
  iterate 5 (all_goals (try split))
  all_goals exact ⟨⟨rfl, rfl, rfl, rfl⟩, rfl⟩

theorem InstallHandlersLocked_installed (g sf : Int → Bool) (w : World)
    (hinst : w.handlers_installed = true) : InstallHandlersLocked g sf w = (false, w) := by
  simp [InstallHandlersLocked, hinst]

theorem installOne_eq (sf : Int → Bool) (w : World) (i : Nat)
    (hs : sf (kExceptionSignals.getD i 0) = false) :
    installOne sf w i = w.setDispositions
      (Function.update w.dispositions (kExceptionSignals.getD i 0) dispatcherAction) := by
  unfold installOne
  simp only [hs, Bool.false_eq_true, if_false]

theorem InstallHandlersLocked_fresh (g sf : Int → Bool) (w : World)
    (hinst : w.handlers_installed = false)
    (hg : ∀ s ∈ kExceptionSignals, g s = false) (hs : ∀ s ∈ kExceptionSignals, sf s = false) :
    (InstallHandlersLocked g sf w).2.handlers_installed = true
    ∧ (InstallHandlersLocked g sf w).2.g_handler_stack_ = w.g_handler_stack_
    ∧ (∀ i, i < kNumHandledSignals → (InstallHandlersLocked g sf w).2.old_handlers i
        = w.dispositions (kExceptionSignals.getD i 0))
    ∧ ∀ s ∈ kExceptionSignals, (InstallHandlersLocked g sf w).2.dispositions s
        = dispatcherAction := by
  have g0 : g (kExceptionSignals.getD 0 0) = false := hg _ (by decide)
  have g1 : g (kExceptionSignals.getD 1 0) = false := hg _ (by decide)
  have g2 : g (kExceptionSignals.getD 2 0) = false := hg _ (by decide)
  have g3 : g (kExceptionSignals.getD 3 0) = false := hg _ (by decide)
  have g4 : g (kExceptionSignals.getD 4 0) = false := hg _ (by decide)
  have s0 : sf (kExceptionSignals.getD 0 0) = false := hs _ (by decide)
  have s1 : sf (kExceptionSignals.getD 1 0) = false := hs _ (by decide)
  have s2 : sf (kExceptionSignals.getD 2 0) = false := hs _ (by decide)
  have s3 : sf (kExceptionSignals.getD 3 0) = false := hs _ (by decide)
  have s4 : sf (kExceptionSignals.getD 4 0) = false := hs _ (by decide)
  have hsave : saveOldHandlers g [0, 1, 2, 3, 4] w = (true,
      ((((w.setOldHandlers (Function.update w.old_handlers 0
            (w.dispositions (kExceptionSignals.getD 0 0)))).setOldHandlers
          (Function.update (Function.update w.old_handlers 0
            (w.dispositions (kExceptionSignals.getD 0 0))) 1
            (w.dispositions (kExceptionSignals.getD 1 0)))).setOldHandlers
          (Function.update (Function.update (Function.update w.old_handlers 0
            (w.dispositions (kExceptionSignals.getD 0 0))) 1
            (w.dispositions (kExceptionSignals.getD 1 0))) 2
            (w.dispositions (kExceptionSignals.getD 2 0)))).setOldHandlers
          (Function.update (Function.update (Function.update (Function.update w.old_handlers 0
            (w.dispositions (kExceptionSignals.getD 0 0))) 1
            (w.dispositions (kExceptionSignals.getD 1 0))) 2
            (w.dispositions (kExceptionSignals.getD 2 0))) 3
            (w.dispositions (kExceptionSignals.getD 3 0)))).setOldHandlers
          (Function.update (Function.update (Function.update (Function.update
            (Function.update w.old_handlers 0
            (w.dispositions (kExceptionSignals.getD 0 0))) 1
            (w.dispositions (kExceptionSignals.getD 1 0))) 2
            (w.dispositions (kExceptionSignals.getD 2 0))) 3
            (w.dispositions (kExceptionSignals.getD 3 0))) 4
            (w.dispositions (kExceptionSignals.getD 4 0)))) := by
    simp only [saveOldHandlers, g0, g1, g2, g3, g4, Bool.false_eq_true, if_false,
      World.setOldHandlers_old_handlers, World.setOldHandlers_dispositions]
  unfold InstallHandlersLocked
  simp only [hinst, Bool.false_eq_true, if_false, handled_indices, hsave, List.foldl,
    installOne_eq, s0, s1, s2, s3, s4, World.setDispositions_dispositions,
    World.setHandlersInstalled_handlers_installed, World.setHandlersInstalled_g_handler_stack_,
    World.setDispositions_g_handler_stack_, World.setOldHandlers_g_handler_stack_,
    World.setHandlersInstalled_old_handlers, World.setDispositions_old_handlers,
    World.setOldHandlers_old_handlers, World.setHandlersInstalled_dispositions,
    World.setOldHandlers_dispositions, true_and]
  refine ⟨?_, ?_⟩
  · intro i hi
    have h5 : kNumHandledSignals = 5 := rfl
    rw [h5] at hi
    interval_cases i <;> simp [Function.update]
  · intro s hmem
    simp only [kExceptionSignals, List.mem_cons, List.mem_singleton, List.not_mem_nil,
      or_false] at hmem
    rcases hmem with rfl | rfl | rfl | rfl | rfl <;>
      simp [kExceptionSignals, SIGSEGV, SIGABRT, SIGFPE, SIGILL, SIGBUS, Function.update]

/-! ## Construction and destruction -/

theorem construct_first (w0 : World) (a : Nat) (d : String) (c : Option DumpCallback)
    (o : InstallOracle) (hinst : w0.handlers_installed = false)
    (hnull : w0.g_handler_stack_ = none)
    (hg : ∀ s ∈ kExceptionSignals, o.sigaction_get_fails s = false)
    (hs : ∀ s ∈ kExceptionSignals, o.sigaction_set_fails s = false) :
    Registered w0 (ExceptionHandler.construct a d c true o w0) [a] := by
  have hA := (InstallAlternateStackLocked_same o
    (((w0.emit Event.lock).setCrashContext CrashContext.zero).setHandlerStack (some []))).1
  have hinst1 : (InstallAlternateStackLocked o
      (((w0.emit Event.lock).setCrashContext CrashContext.zero).setHandlerStack
        (some []))).handlers_installed = false := by
    rw [hA.handlers_installed]
    simpa using hinst
  obtain ⟨h1, h2, h3, h4⟩ := InstallHandlersLocked_fresh o.sigaction_get_fails
    o.sigaction_set_fails _ hinst1 hg hs
  rw [hA.g_handler_stack_] at h2
  unfold ExceptionHandler.construct
  simp only [World.setCrashContext_g_handler_stack_, World.emit_g_handler_stack_, hnull, if_true]
  constructor
  · exact ⟨_, rfl, by simp [h2]⟩
  · simpa using h1
  · intro i hi
    have := h3 i hi
    rw [hA.dispositions] at this
    simpa using this
  · intro s hmem
    simpa using h4 s hmem

theorem construct_next (w0 w : World) (addrs : List Nat) (a : Nat) (d : String)
    (c : Option DumpCallback) (o : InstallOracle) (hreg : Registered w0 w addrs) :
    Registered w0 (ExceptionHandler.construct a d c true o w) (addrs ++ [a]) := by
  obtain ⟨⟨stk, hstk, hmap⟩, hinst, hsaved, hdisp⟩ := hreg
  have hA := (InstallAlternateStackLocked_same o
    ((w.emit Event.lock).setCrashContext CrashContext.zero)).1
  have hinst1 : (InstallAlternateStackLocked o
      ((w.emit Event.lock).setCrashContext CrashContext.zero)).handlers_installed = true := by
    rw [hA.handlers_installed]
    simpa using hinst
  unfold ExceptionHandler.construct
  simp only [World.setCrashContext_g_handler_stack_, World.emit_g_handler_stack_, hstk, if_true,
    InstallHandlersLocked_installed _ _ _ hinst1]
  constructor
  · refine ⟨_, rfl, ?_⟩
    rw [hA.g_handler_stack_]
    simp [hstk, hmap]
  · simpa using hinst1
  · intro i hi
    simp only [World.emit_old_handlers, World.setHandlerStack_old_handlers, hA.old_handlers,
      World.setCrashContext_old_handlers]
    exact hsaved i hi
  · intro s hmem
    simp only [World.emit_dispositions, World.setHandlerStack_dispositions, hA.dispositions,
      World.setCrashContext_dispositions]
    exact hdisp s hmem

theorem constructAll_registered (w0 : World) :
    ∀ (cs : List CtorArgs) (w : World) (addrs : List Nat), Registered w0 w addrs →
      Registered w0 (constructAll cs w) (addrs ++ cs.map (fun c => c.addr)) := by
  intro cs
  induction cs with
  | nil =>
    intro w addrs hreg
    simpa [constructAll] using hreg
  | cons c cs ih =>
    intro w addrs hreg
    have := ih _ _ (construct_next w0 w addrs c.addr c.directory c.callback c.o hreg)
    simpa [constructAll] using this

theorem eraseAddr_map (a : Nat) (stk : List ExceptionHandler) :
    (eraseAddr a stk).map (fun h => h.addr) = (stk.map (fun h => h.addr)).erase a := by
  induction stk with
  | nil => rfl
  | cons h t ih =>
    by_cases hc : h.addr = a
    · simp [eraseAddr, hc]
    · have hb : (h.addr == a) = false := by simpa using hc
      simp [eraseAddr, hb, List.erase_cons, ih]

theorem any_addr (a : Nat) (stk : List ExceptionHandler)
    (hmem : a ∈ stk.map (fun h => h.addr)) : stk.any (fun h => h.addr == a) = true := by
  simp only [List.mem_map] at hmem
  obtain ⟨h, hh, rfl⟩ := hmem
  simp only [List.any_eq_true]
  exact ⟨h, hh, by simp⟩

theorem destroy_keep (w0 w : World) (addrs : List Nat) (a : Nat) (o : RestoreOracle)
    (hreg : Registered w0 w addrs) (hmem : a ∈ addrs) (hrest : addrs.erase a ≠ []) :
    ∃ w2, ExceptionHandler.destroy a o w = some w2 ∧ Registered w0 w2 (addrs.erase a) := by
  obtain ⟨⟨stk, hstk, hmap⟩, hinst, hsaved, hdisp⟩ := hreg
  have hany := any_addr a stk (hmap ▸ hmem)
  have hne : (eraseAddr a stk).isEmpty = false := by
    cases he : eraseAddr a stk with
    | nil =>
      have := eraseAddr_map a stk
      rw [he, hmap] at this
      exact absurd this.symm hrest
    | cons x xs => rfl
  refine ⟨((w.emit Event.lock).setHandlerStack (some (eraseAddr a stk))).emit Event.unlock,
    ?_, ?_⟩
  · unfold ExceptionHandler.destroy
    simp only [World.emit_g_handler_stack_, hstk, hany, if_true, hne, Bool.false_eq_true,
      if_false]
  · constructor
    · exact ⟨_, rfl, by rw [eraseAddr_map, hmap]⟩
    · simpa using hinst
    · intro i hi
      simpa using hsaved i hi
    · intro s hs
      simpa using hdisp s hs

theorem destroy_last (w0 w : World) (a : Nat) (o : RestoreOracle)
    (hreg : Registered w0 w [a])
    (hs : ∀ s ∈ kExceptionSignals, o.sigaction_set_fails s = false) :
    ∃ w2, ExceptionHandler.destroy a o w = some w2
      ∧ w2.handlers_installed = false ∧ w2.g_handler_stack_ = none
      ∧ ∀ s ∈ kExceptionSignals, w2.dispositions s = w0.dispositions s := by
  obtain ⟨⟨stk, hstk, hmap⟩, hinst, hsaved, hdisp⟩ := hreg
  have hany := any_addr a stk (hmap ▸ List.mem_singleton.mpr rfl)
  have hempty : (eraseAddr a stk).isEmpty = true := by
    have := eraseAddr_map a stk
    rw [hmap] at this
    cases he : eraseAddr a stk with
    | nil => rfl
    | cons x xs =>
      rw [he] at this
      simp at this
  have hR := (RestoreAlternateStackLocked_same o
    (((w.emit Event.lock).setHandlerStack (some (eraseAddr a stk))).setHandlerStack none)).1
  have hinstR : (RestoreAlternateStackLocked o
      (((w.emit Event.lock).setHandlerStack (some (eraseAddr a stk))).setHandlerStack
        none)).handlers_installed = true := by
    rw [hR.handlers_installed]
    simpa using hinst
  refine ⟨(RestoreHandlersLocked o.sigaction_set_fails (RestoreAlternateStackLocked o
    (((w.emit Event.lock).setHandlerStack (some (eraseAddr a stk))).setHandlerStack
      none))).emit Event.unlock, ?_, ?_, ?_, ?_⟩
  · unfold ExceptionHandler.destroy
    simp only [World.emit_g_handler_stack_, hstk, hany, if_true, hempty]
  · simp [RestoreHandlersLocked_installed]
  · simp [RestoreHandlersLocked_stack, hR.g_handler_stack_]
  · intro s hmem
    have key : ∀ i, i < kNumHandledSignals →
        ((RestoreHandlersLocked o.sigaction_set_fails (RestoreAlternateStackLocked o
          (((w.emit Event.lock).setHandlerStack (some (eraseAddr a stk))).setHandlerStack
            none))).emit Event.unlock).dispositions (kExceptionSignals.getD i 0)
          = w0.dispositions (kExceptionSignals.getD i 0) := by
      intro i hi
      have hsi : o.sigaction_set_fails (kExceptionSignals.getD i 0) = false := by
        apply hs
        have h5 : kNumHandledSignals = 5 := rfl
        rw [h5] at hi
        interval_cases i <;> decide
      rw [World.emit_dispositions, RestoreHandlersLocked_dispositions _ _ hinstR i hi, hsi,
        hR.old_handlers]
      simpa using hsaved i hi
    simp only [kExceptionSignals, List.mem_cons, List.mem_singleton, List.not_mem_nil,
      or_false] at hmem
    rcases hmem with rfl | rfl | rfl | rfl | rfl
    · exact key 0 (by decide)
    · exact key 1 (by decide)
    · exact key 2 (by decide)
    · exact key 3 (by decide)
    · exact key 4 (by decide)

theorem destroyAll_keep (w0 : World) :
    ∀ (ds : List (Nat × RestoreOracle)) (w : World) (addrs : List Nat),
      Registered w0 w addrs → addrs.Nodup → (ds.map Prod.fst).Nodup →
      (∀ a ∈ ds.map Prod.fst, a ∈ addrs) → ds.length < addrs.length →
      ∃ w2 rest, destroyAll ds w = some w2 ∧ Registered w0 w2 rest
        ∧ rest.length + ds.length = addrs.length
        ∧ ∀ a, a ∈ rest ↔ a ∈ addrs ∧ a ∉ ds.map Prod.fst := by
  intro ds
  induction ds with
  | nil =>
    intro w addrs hreg _ _ _ _
    exact ⟨w, addrs, rfl, hreg, by simp, by simp⟩
  | cons d ds ih =>
    intro w addrs hreg hnd hdnd hsub hlen
    have hd : d.1 ∈ addrs := hsub d.1 (by simp)
    have hlen1 : (addrs.erase d.1).length = addrs.length - 1 := List.length_erase_of_mem hd
    have hne : addrs.erase d.1 ≠ [] := by
      intro h0
      rw [h0] at hlen1
      simp only [List.length_cons, List.length_nil] at hlen hlen1
      omega
    obtain ⟨w1, hw1, hreg1⟩ := destroy_keep w0 w addrs d.1 d.2 hreg hd hne
    have hdnd1 : (ds.map Prod.fst).Nodup := by
      simp only [List.map_cons, List.nodup_cons] at hdnd
      exact hdnd.2
    have hnot : d.1 ∉ ds.map Prod.fst := by
      simp only [List.map_cons, List.nodup_cons] at hdnd
      exact hdnd.1
    have hsub1 : ∀ a ∈ ds.map Prod.fst, a ∈ addrs.erase d.1 := by
      intro a ha
      have hane : a ≠ d.1 := fun h => hnot (h ▸ ha)
      exact (List.mem_erase_of_ne hane).mpr (hsub a (by simp [List.mem_map] at ha ⊢; exact Or.inr ha))
    have hlen2 : ds.length < (addrs.erase d.1).length := by
      simp only [List.length_cons] at hlen
      omega
    obtain ⟨w2, rest, hw2, hreg2, hl, hm⟩ :=
      ih w1 (addrs.erase d.1) hreg1 (hnd.erase d.1) hdnd1 hsub1 hlen2
    refine ⟨w2, rest, ?_, hreg2, ?_, ?_⟩
    · simp [destroyAll, hw1, hw2]
    · simp only [List.length_cons] at hlen ⊢
      omega
    · intro a
      rw [hm a, hnd.mem_erase_iff]
      simp only [List.map_cons, List.mem_cons, not_or]
      tauto

/-- C9: start with no registered instance and handlers not installed; construct
`N >= 1` instances at distinct addresses with `install_handler = true`, every
`sigaction` call succeeding.  After destroying any `N - 1` of them, in any
order, the dispatcher is the disposition of all five handled signals; after
then destroying the remaining one, each of the five signals has the
disposition it had before the first construction. -/
theorem C9_install_once_restore_on_last (w0 : World) (cs : List CtorArgs)
    (ds : List (Nat × RestoreOracle)) (last : Nat × RestoreOracle)
    (hinst : w0.handlers_installed = false) (hnull : w0.g_handler_stack_ = none)
    (hdistinct : (cs.map (fun c => c.addr)).Nodup)
    (hget : ∀ c ∈ cs, ∀ s ∈ kExceptionSignals, c.o.sigaction_get_fails s = false)
    (hset : ∀ c ∈ cs, ∀ s ∈ kExceptionSignals, c.o.sigaction_set_fails s = false)
    (hds : (ds.map Prod.fst).Nodup)
    (hsub : ∀ a ∈ ds.map Prod.fst, a ∈ cs.map (fun c => c.addr))
    (hcount : ds.length + 1 = cs.length)
    (hlast : last.1 ∈ cs.map (fun c => c.addr)) (hfresh : last.1 ∉ ds.map Prod.fst)
    (hrestore : ∀ s ∈ kExceptionSignals, last.2.sigaction_set_fails s = false) :
    ∃ w1, destroyAll ds (constructAll cs w0) = some w1
      ∧ (∀ s ∈ kExceptionSignals, w1.dispositions s = dispatcherAction)
      ∧ ∃ w2, ExceptionHandler.destroy last.1 last.2 w1 = some w2
        ∧ ∀ s ∈ kExceptionSignals, w2.dispositions s = w0.dispositions s := by
  cases cs with
  | nil => simp at hcount
  | cons c cs =>
    have hreg1 : Registered w0
        (ExceptionHandler.construct c.addr c.directory c.callback true c.o w0) [c.addr] :=
      construct_first w0 c.addr c.directory c.callback c.o hinst hnull
        (hget c (by simp)) (hset c (by simp))
    have hreg : Registered w0 (constructAll (c :: cs) w0)
        ((c :: cs).map (fun c => c.addr)) := by
      have := constructAll_registered w0 cs _ _ hreg1
      simpa [constructAll] using this
    have hlen : ds.length < ((c :: cs).map (fun c => c.addr)).length := by
      simp only [List.length_map]
      omega
    obtain ⟨w1, rest, hw1, hregw1, hl, hm⟩ :=
      destroyAll_keep w0 ds _ _ hreg hdistinct hds hsub hlen
    have hrest1 : rest.length = 1 := by
      simp only [List.length_map] at hl
      omega
    have hin : last.1 ∈ rest := (hm last.1).mpr ⟨hlast, hfresh⟩
    have hrest : rest = [last.1] := by
      match rest, hrest1, hin with
      | [x], _, hx =>
        have hx1 : last.1 = x := by simpa using hx
        rw [hx1]
    rw [hrest] at hregw1
    obtain ⟨w2, hw2, _, _, hdisp⟩ := destroy_last w0 w1 last.1 last.2 hregw1 hrestore
    exact ⟨w1, hw1, hregw1.dispatcher, w2, hw2, hdisp⟩

/-! ## When the dispatcher is taken away -/

theorem construct_keeps_installed (a : Nat) (d : String) (c : Option DumpCallback) (i : Bool)
    (o : InstallOracle) (w : World) (hinst : w.handlers_installed = true) :
    (ExceptionHandler.construct a d c i o w).handlers_installed = true := by
  unfold ExceptionHandler.construct
  simp only [World.emit_handlers_installed, World.setHandlerStack_handlers_installed]
  cases i
  · simp only [Bool.false_eq_true, if_false]
    split <;> simpa using hinst
  · simp only [if_true]
    split
    · have hA := (InstallAlternateStackLocked_same o
        (((w.emit Event.lock).setCrashContext CrashContext.zero).setHandlerStack (some []))).1
      have h1 : (InstallAlternateStackLocked o
          (((w.emit Event.lock).setCrashContext CrashContext.zero).setHandlerStack
            (some []))).handlers_installed = true := by
        rw [hA.handlers_installed]
        simpa using hinst
      rw [InstallHandlersLocked_installed _ _ _ h1]
      exact h1
    · have hA := (InstallAlternateStackLocked_same o
        ((w.emit Event.lock).setCrashContext CrashContext.zero)).1
      have h1 : (InstallAlternateStackLocked o
          ((w.emit Event.lock).setCrashContext CrashContext.zero)).handlers_installed = true := by
        rw [hA.handlers_installed]
        simpa using hinst
      rw [InstallHandlersLocked_installed _ _ _ h1]
      exact h1

theorem destroy_cases (a : Nat) (o : RestoreOracle) (w w2 : World)
    (hstep : ExceptionHandler.destroy a o w = some w2) :
    ∃ stk, w.g_handler_stack_ = some stk ∧
      ((eraseAddr a stk).isEmpty = true ∧
        w2 = (RestoreHandlersLocked o.sigaction_set_fails (RestoreAlternateStackLocked o
          (((w.emit Event.lock).setHandlerStack (some (eraseAddr a stk))).setHandlerStack
            none))).emit Event.unlock
      ∨ (eraseAddr a stk).isEmpty = false ∧
        w2 = ((w.emit Event.lock).setHandlerStack (some (eraseAddr a stk))).emit
          Event.unlock) := by
  unfold ExceptionHandler.destroy at hstep
  simp only [World.emit_g_handler_stack_] at hstep
  cases hstk : w.g_handler_stack_ with
  | none => simp [hstk] at hstep
  | some stk =>
    simp only [hstk] at hstep
    split at hstep
    · cases he : (eraseAddr a stk).isEmpty
      · simp only [he, Bool.false_eq_true, if_false, Option.some.injEq] at hstep
        exact ⟨stk, rfl, Or.inr ⟨he, hstep.symm⟩⟩
      · simp only [he, if_true, Option.some.injEq] at hstep
        exact ⟨stk, rfl, Or.inl ⟨he, hstep.symm⟩⟩
    · simp at hstep

theorem deliver_cases (sig : Int) (info : siginfo_t) (uc : ucontext) (o : SignalOracle)
    (w w2 : World) (hstep : ExceptionHandler.SignalHandler sig info uc o w = some w2) :
    (passesSiginfoCheck sig o w = false ∧
      w2 = (if o.sigaction_set_fails sig then InstallDefaultHandler sig (w.emit Event.lock)
            else (w.emit Event.lock).setDispositions
              (Function.update (w.emit Event.lock).dispositions sig
                (reinstalledAction sig))).emit Event.unlock)
    ∨ (passesSiginfoCheck sig o w = true ∧ ∃ stk, w.g_handler_stack_ = some stk ∧
        w2 = SignalHandler.reraise sig info o
          ((RestoreHandlersLocked o.sigaction_set_fails
            ((SignalHandler.loop sig info uc o.dump stk.length stk
              (w.emit Event.lock)).2.2.setHandlerStack
                (some (SignalHandler.loop sig info uc o.dump stk.length stk
                  (w.emit Event.lock)).2.1))).emit Event.unlock)) := by
  unfold ExceptionHandler.SignalHandler at hstep
  simp only [World.emit_dispositions, World.emit_g_handler_stack_] at hstep
  cases hc : (!o.sigaction_get_fails && (w.dispositions sig).sa_flags &&& SA_SIGINFO == 0)
  · right
    simp only [hc, Bool.false_eq_true, if_false] at hstep
    refine ⟨by simp [passesSiginfoCheck, hc], ?_⟩
    cases hstk : w.g_handler_stack_ with
    | none => simp [hstk] at hstep
    | some stk =>
      refine ⟨stk, rfl, ?_⟩
      simp only [hstk] at hstep
      have hfalse := (SignalHandler_loop_spec sig info uc o.dump stk.length stk
        (w.emit Event.lock)).1
      rcases hr : SignalHandler.loop sig info uc o.dump stk.length stk (w.emit Event.lock)
        with ⟨handled, stack1, w1⟩
      rw [hr] at hfalse hstep
      simp only at hfalse
      subst hfalse
      simp only [Bool.false_eq_true, if_false, Option.some.injEq] at hstep
      exact hstep.symm
  · left
    simp only [hc, if_true, Option.some.injEq, World.emit_dispositions] at hstep
    exact ⟨by simp [passesSiginfoCheck, hc], hstep.symm⟩

theorem reraise_same (sig : Int) (info : siginfo_t) (o : SignalOracle) (w : World) :
    (SignalHandler.reraise sig info o w).handlers_installed = w.handlers_installed
    ∧ (SignalHandler.reraise sig info o w).dispositions = w.dispositions := by
  unfold SignalHandler.reraise
  split <;> simp

/-- C10 (amended): with the handlers installed, an operation (construction,
destruction, delivery to `SignalHandler`) leaves `handlers_installed` false
exactly when it is a destruction after which the registry is empty or a
delivery that passes the flag check and that no instance handles; in that
case every handled signal gets back its saved disposition (the default one
where `sigaction` fails); and a destruction is of that kind exactly when it
leaves the registry empty (null). -/
theorem C10_handlers_removed_iff (w : World) (op : Op) (w2 : World)
    (hinst : w.handlers_installed = true) (hstep : step w op = some w2) :
    (w2.handlers_installed = false ↔ removesHandlers w op = true)
    ∧ (w2.handlers_installed = false → ∀ i, i < kNumHandledSignals →
        w2.dispositions (kExceptionSignals.getD i 0)
          = if op.restoreFails (kExceptionSignals.getD i 0)
            then ⟨SigHandler.SIG_DFL, [], SA_RESTART⟩ else w.old_handlers i)
    ∧ (∀ a o, op = Op.destroy a o →
        (removesHandlers w op = true ↔ w2.g_handler_stack_ = none)) := by
  cases op with
  | construct a d c i o =>
    simp only [step, Option.some.injEq] at hstep
    subst hstep
    have h := construct_keeps_installed a d c i o w hinst
    refine ⟨?_, ?_, ?_⟩
    · simp [h, removesHandlers]
    · intro hf
      rw [h] at hf
      exact absurd hf (by decide)
    · intro a2 o2 heq
      cases heq
  | destroy a o =>
    simp only [step] at hstep
    obtain ⟨stk, hstk, hcase⟩ := destroy_cases a o w w2 hstep
    rcases hcase with ⟨hemp, rfl⟩ | ⟨hemp, rfl⟩
    · have hR := (RestoreAlternateStackLocked_same o
        (((w.emit Event.lock).setHandlerStack (some (eraseAddr a stk))).setHandlerStack none)).1
      have hinstR : (RestoreAlternateStackLocked o
          (((w.emit Event.lock).setHandlerStack (some (eraseAddr a stk))).setHandlerStack
            none)).handlers_installed = true := by
        rw [hR.handlers_installed]
        simpa using hinst
      refine ⟨?_, ?_, ?_⟩
      · simp [RestoreHandlersLocked_installed, removesHandlers, hstk, hemp]
      · intro _ i hi
        rw [World.emit_dispositions, RestoreHandlersLocked_dispositions _ _ hinstR i hi,
          hR.old_handlers]
        simp [Op.restoreFails]
      · intro a2 o2 _
        simp [removesHandlers, hstk, hemp, RestoreHandlersLocked_stack, hR.g_handler_stack_]
    · refine ⟨?_, ?_, ?_⟩
      · simp [removesHandlers, hstk, hemp, hinst]
      · intro hf
        simp [hinst] at hf
      · intro a2 o2 _
        simp [removesHandlers, hstk, hemp]
  | deliver sig info uc o =>
    simp only [step] at hstep
    rcases deliver_cases sig info uc o w w2 hstep with ⟨hpass, rfl⟩ | ⟨hpass, stk, hstk, rfl⟩
    · have hkeep : ((if o.sigaction_set_fails sig = true
            then InstallDefaultHandler sig (w.emit Event.lock)
            else (w.emit Event.lock).setDispositions
              (Function.update (w.emit Event.lock).dispositions sig
                (reinstalledAction sig))).emit Event.unlock).handlers_installed = true := by
        split <;> simpa [InstallDefaultHandler] using hinst
      refine ⟨?_, ?_, ?_⟩
      · rw [hkeep]
        simp [removesHandlers, hpass]
      · intro hf
        rw [hkeep] at hf
        exact absurd hf (by decide)
      · intro a2 o2 heq
        cases heq
    · obtain ⟨hl1, hl2, _⟩ := SignalHandler_loop_spec sig info uc o.dump stk.length stk
        (w.emit Event.lock)
      have hinstL : ((SignalHandler.loop sig info uc o.dump stk.length stk
          (w.emit Event.lock)).2.2.setHandlerStack
            (some (SignalHandler.loop sig info uc o.dump stk.length stk
              (w.emit Event.lock)).2.1)).handlers_installed = true := by
        rw [World.setHandlerStack_handlers_installed, hl2.handlers_installed]
        simpa using hinst
      refine ⟨?_, ?_, ?_⟩
      · simp [(reraise_same _ _ _ _).1, RestoreHandlersLocked_installed, removesHandlers, hpass,
          deliveryHandled, hstk, hl1]
      · intro _ i hi
        rw [(reraise_same _ _ _ _).2, World.emit_dispositions,
          RestoreHandlersLocked_dispositions _ _ hinstL i hi,
          World.setHandlerStack_old_handlers, hl2.old_handlers]
        simp [Op.restoreFails]
      · intro a2 o2 heq
        cases heq

/-- Witness for C10: the destruction of the only registered instance. -/
theorem C10_handlers_removed_iff_witness :
    oneInstanceWorld.handlers_installed = true
    ∧ (((step oneInstanceWorld (Op.destroy 1 okRestore)).get (by decide)).handlers_installed
          = false
        ↔ removesHandlers oneInstanceWorld (Op.destroy 1 okRestore) = true) :=
  ⟨by decide, (C10_handlers_removed_iff oneInstanceWorld (Op.destroy 1 okRestore) _
    (by decide) (Option.some_get _).symm).1⟩

/-- C10 as stated fails: one instance is registered with its marker present;
a delivered `SIGSEGV` makes the instance give up, and `SignalHandler` puts the
saved dispositions back and clears `handlers_installed` while the registry
still holds the instance. -/
theorem C10_removed_while_registry_nonempty :
    busyOneInstanceWorld.handlers_installed = true
    ∧ (step busyOneInstanceWorld (Op.deliver SIGSEGV faultInfo emptyContext okSignal)).map
        (fun w => (w.handlers_installed, w.g_handler_stack_.map (fun st => st.length)))
      = some (false, some 1)
    ∧ (step busyOneInstanceWorld (Op.deliver SIGSEGV faultInfo emptyContext okSignal)).map
        (fun w => (w.dispositions SIGSEGV, callbackCalls (emitted busyOneInstanceWorld w)))
      = some (previousAction, [(2, none, false)]) := by
  decide

/-! ## Witnesses and refuting inputs for the claims about `HandleSignal` -/

/-- Witness for C4: an instance with a callback whose marker is present. -/
theorem C4_marker_present_gives_up_witness :
    (freshHandler.HandleSignal SIGSEGV faultInfo emptyContext okDump busyWorld).1 = false
    ∧ emitted busyWorld
        (freshHandler.HandleSignal SIGSEGV faultInfo emptyContext okDump busyWorld).2.2
        = [Event.callback 2 none false] :=
  have h := C4_marker_present_gives_up freshHandler SIGSEGV faultInfo emptyContext okDump
    busyWorld (by decide)
  ⟨h.1, h.2.1⟩

/-- C4 as stated fails for an instance without a callback: the marker is
present, and `HandleSignal` makes no callback call at all, so not exactly one
call of type 2. -/
theorem C4_no_callback_no_give_up_call :
    silentHandler.directory_ ++ "/" ++ FLAG_FILE ∈ busyWorld.files
    ∧ callbackCalls (emitted busyWorld
        (silentHandler.HandleSignal SIGSEGV faultInfo emptyContext okDump busyWorld).2.2) = []
    ∧ ¬ ∃ path succeeded, callbackCalls (emitted busyWorld
        (silentHandler.HandleSignal SIGSEGV faultInfo emptyContext okDump busyWorld).2.2)
          = [(2, path, succeeded)] := by
  have h : callbackCalls (emitted busyWorld
      (silentHandler.HandleSignal SIGSEGV faultInfo emptyContext okDump busyWorld).2.2) = [] := by
    decide
  refine ⟨by decide, h, ?_⟩
  rintro ⟨p, s, hps⟩
  rw [h] at hps
  cases hps

/-- Witness for C9: two instances; the first is destroyed, then the second. -/
theorem C9_install_once_restore_on_last_witness :
    ∃ w1, destroyAll [(1, okRestore)]
        (constructAll [⟨1, "/data/a", some echoCallback, okInstall⟩,
          ⟨2, "/data/b", some echoCallback, okInstall⟩] idleWorld) = some w1
      ∧ (∀ s ∈ kExceptionSignals, w1.dispositions s = dispatcherAction)
      ∧ ∃ w2, ExceptionHandler.destroy 2 okRestore w1 = some w2
        ∧ ∀ s ∈ kExceptionSignals, w2.dispositions s = idleWorld.dispositions s :=
  C9_install_once_restore_on_last idleWorld
    [⟨1, "/data/a", some echoCallback, okInstall⟩, ⟨2, "/data/b", some echoCallback, okInstall⟩]
    [(1, okRestore)] (2, okRestore) rfl rfl (by decide)
    (by intro c hc s _; simp at hc; rcases hc with rfl | rfl <;> rfl)
    (by intro c hc s _; simp at hc; rcases hc with rfl | rfl <;> rfl)
    (by decide) (by decide) rfl (by decide) (by decide) (by intro s _; rfl)

/-! ## Evaluations at concrete inputs -/

/-- C1, evaluated on the code: a fresh instance receives `SIGSEGV`, the marker
is absent, the tracer stack is allocated, the tracer child 200 is spawned,
waited for and exits with status 0, and the end callback is issued with
`succeeded = true`; `HandleSignal` nevertheless returns `false`, because
`GenerateDump` ends in `return false`. -/
theorem C1_HandleSignal_returns_false_after_successful_dump :
    (freshHandler.HandleSignal SIGSEGV faultInfo emptyContext okDump idleWorld).1 = false
    ∧ spawners (emitted idleWorld
        (freshHandler.HandleSignal SIGSEGV faultInfo emptyContext okDump idleWorld).2.2) = [1]
    ∧ Event.waitpid 200 ∈
        (freshHandler.HandleSignal SIGSEGV faultInfo emptyContext okDump idleWorld).2.2.trace
    ∧ (1, some "/data/a/20240102030405", true) ∈ callbackCalls (emitted idleWorld
        (freshHandler.HandleSignal SIGSEGV faultInfo emptyContext okDump idleWorld).2.2) := by
  decide

/-- C2, evaluated on the code: one instance is registered over a previously
installed handler, `SIGSEGV` is delivered and the instance attempts a dump
(begin and end callbacks are both issued, the dump succeeds); afterwards the
disposition of `SIGSEGV` is the one saved before installation, whose handler
is not `SIG_DFL`. -/
theorem C2_disposition_after_dump_is_saved_one :
    (ExceptionHandler.SignalHandler SIGSEGV faultInfo emptyContext okSignal oneInstanceWorld).map
      (fun w => (w.dispositions SIGSEGV, callbackCalls (emitted oneInstanceWorld w)))
      = some (previousAction,
          [(0, none, false), (1, some "/data/a/20240102030405", true)])
    ∧ previousAction.sa_handler ≠ SigHandler.SIG_DFL := by
  decide

/-- C3, evaluated on the code: two instances with distinct idle directories are
registered and one `SIGSEGV` is delivered; both instances issue a begin
callback and both spawn a tracer child, the most recently registered first. -/
theorem C3_both_instances_react :
    (ExceptionHandler.SignalHandler SIGSEGV faultInfo emptyContext okSignal twoInstanceWorld).map
      (fun w => (spawners (emitted twoInstanceWorld w),
                 (callbackCalls (emitted twoInstanceWorld w)).map (fun c => c.1)))
      = some ([2, 1], [0, 1, 0, 1]) := by
  decide

/-- C5, evaluated on the code: the marker is absent on entry and is created by
`HandleSignal`; when the allocation of the tracer stack fails, and likewise
when spawning the tracer child fails, `HandleSignal` returns with the marker
still present. -/
theorem C5_marker_left_behind_on_early_return :
    "/data/a/flagfile" ∉ idleWorld.files
    ∧ "/data/a/flagfile" ∈ (freshHandler.HandleSignal SIGSEGV faultInfo emptyContext
        { okDump with alloc_ok := false } idleWorld).2.2.files
    ∧ "/data/a/flagfile" ∈ (freshHandler.HandleSignal SIGSEGV faultInfo emptyContext
        { okDump with clone := -1 } idleWorld).2.2.files
    ∧ "/data/a/flagfile" ∉ (freshHandler.HandleSignal SIGSEGV faultInfo emptyContext
        okDump idleWorld).2.2.files := by
  decide

/-- C6, evaluated on the code: for a fresh instance with a callback, an absent
marker and a spawned tracer child, the callback is called twice, but the begin
call receives `c_path_` as it was before the artifact path is computed (never
assigned), not the path handed to the end call. -/
theorem C6_begin_callback_gets_unassigned_path :
    callbackCalls (emitted idleWorld
        (freshHandler.HandleSignal SIGSEGV faultInfo emptyContext okDump idleWorld).2.2)
      = [(0, none, false), (1, some "/data/a/20240102030405", true)] := by
  decide

/-! ## The reentrancy guard and the early returns -/

/-- C19, evaluated on the code: the marker of `/data/a` cannot be opened for
reading and creating it fails; `CheckHandlerValid` then calls `fclose` on the
null handle and returns true, as if the marker had been created, while no
marker exists. -/
theorem C19_fclose_on_null_handle :
    (freshHandler.CheckHandlerValid { okDump with fopen_w_ok := false } idleWorld).1 = true
    ∧ emitted idleWorld
        (freshHandler.CheckHandlerValid { okDump with fopen_w_ok := false } idleWorld).2
      = [Event.fclose none]
    ∧ "/data/a/flagfile" ∉
        (freshHandler.CheckHandlerValid { okDump with fopen_w_ok := false } idleWorld).2.files := by
  decide

theorem GenerateDump_events_early (h : ExceptionHandler) (o : DumpOracle)
    (hfail : o.alloc_ok = false ∨ o.clone = -1) :
    GenerateDump.events h o =
      if o.alloc_ok then
        [Event.clone h.addr o.getpid
            (h.directory_ ++ "/" ++ (strftime 20 o.localtime).getD o.time_string_init) o.clone,
          Event.close (o.pipe.getD (-1, -1)).1, Event.close (o.pipe.getD (-1, -1)).2]
      else [] := by
  unfold GenerateDump.events
  cases ha : o.alloc_ok
  · simp
  · rcases hfail with hf | hf
    · rw [ha] at hf
      cases hf
    · simp [hf]

/-- C16 (amended): when the marker is absent on entry and the allocation of the
tracer stack fails or `sys_clone` returns -1, `HandleSignal` returns false; the
callback calls are exactly one begin call (type 0) when the instance has a
callback and none when it has no callback, so never an end call; no wait is
made; and when the spawn failed, the descriptors closed are exactly the two
ends of the channel. -/
theorem C16_early_return (h : ExceptionHandler) (sig : Int) (info : siginfo_t) (uc : ucontext)
    (o : DumpOracle) (w : World)
    (hidle : h.directory_ ++ "/" ++ FLAG_FILE ∉ w.files)
    (hfail : o.alloc_ok = false ∨ o.clone = -1) :
    (h.HandleSignal sig info uc o w).1 = false
    ∧ callbackCalls (emitted w (h.HandleSignal sig info uc o w).2.2)
        = (if h.callback_.isSome then [(0, h.c_path_, false)] else [])
    ∧ waits (emitted w (h.HandleSignal sig info uc o w).2.2) = []
    ∧ (o.alloc_ok = true →
        closes (emitted w (h.HandleSignal sig info uc o w).2.2)
          = [(o.pipe.getD (-1, -1)).1, (o.pipe.getD (-1, -1)).2]) := by
  have hem := emitted_append w _ _ (HandleSignal_trace h sig info uc o w)
  rw [hem]
  unfold HandleSignal.events
  simp only [hidle, if_false, GenerateDump_events_early h o hfail]
  refine ⟨HandleSignal_returns_false _ _ _ _ _ _, ?_, ?_, ?_⟩
  · cases h.callback_ <;> cases o.alloc_ok <;>
      cases (decide (info.si_code > 0)
        || ((info.si_code == SI_USER || info.si_code == SI_TKILL) && info.si_pid == o.getpid)) <;>
      simp [callbackCalls]
  · cases h.callback_ <;> cases o.alloc_ok <;>
      cases (decide (info.si_code > 0)
        || ((info.si_code == SI_USER || info.si_code == SI_TKILL) && info.si_pid == o.getpid)) <;>
      simp [waits]
  · intro ha
    cases h.callback_ <;>
      cases (decide (info.si_code > 0)
        || ((info.si_code == SI_USER || info.si_code == SI_TKILL) && info.si_pid == o.getpid)) <;>
      simp [closes, ha]

/-- Witness for C16: the spawn of the tracer child fails for a fresh instance. -/
theorem C16_early_return_witness :
    (freshHandler.HandleSignal SIGSEGV faultInfo emptyContext { okDump with clone := -1 }
        idleWorld).1 = false
    ∧ callbackCalls (emitted idleWorld (freshHandler.HandleSignal SIGSEGV faultInfo emptyContext
        { okDump with clone := -1 } idleWorld).2.2) = [(0, none, false)] :=
  have h := C16_early_return freshHandler SIGSEGV faultInfo emptyContext
    { okDump with clone := -1 } idleWorld (by decide) (Or.inr rfl)
  ⟨h.1, h.2.1⟩

/-- C16 as stated fails for an instance without a callback: the marker is
absent, the allocation of the tracer stack fails, and no callback call is made
at all, so not exactly one. -/
theorem C16_no_callback_no_begin_call :
    silentHandler.directory_ ++ "/" ++ FLAG_FILE ∉ idleWorld.files
    ∧ callbackCalls (emitted idleWorld (silentHandler.HandleSignal SIGSEGV faultInfo emptyContext
        { okDump with alloc_ok := false } idleWorld).2.2) = [] := by
  decide

/-! ## The check of the `SA_SIGINFO` flag -/

/-- C12 (amended): when reading the installed disposition of `sig` succeeds and
it lacks `SA_SIGINFO`, `SignalHandler` returns; its only events are the lock
and the unlock (no instance handles the signal, nothing is sent or waited
for); the disposition of `sig` becomes the dispatcher with flags
`SA_ONSTACK | SA_SIGINFO`, or the default one when that `sigaction` fails; every
other disposition, the installed flag, the saved dispositions, the registry,
the files and the crash context are unchanged. -/
theorem C12_reinstall_and_return (sig : Int) (info : siginfo_t) (uc : ucontext)
    (o : SignalOracle) (w : World)
    (hread : o.sigaction_get_fails = false)
    (hflag : (w.dispositions sig).sa_flags &&& SA_SIGINFO = 0) :
    ∃ w2, ExceptionHandler.SignalHandler sig info uc o w = some w2
      ∧ emitted w w2 = [Event.lock, Event.unlock]
      ∧ w2.dispositions sig
          = (if o.sigaction_set_fails sig then ⟨SigHandler.SIG_DFL, [], SA_RESTART⟩
             else ⟨SigHandler.SignalHandler, sigaddset [] sig, SA_ONSTACK ||| SA_SIGINFO⟩)
      ∧ (∀ s, s ≠ sig → w2.dispositions s = w.dispositions s)
      ∧ w2.handlers_installed = w.handlers_installed
      ∧ w2.old_handlers = w.old_handlers
      ∧ w2.g_handler_stack_ = w.g_handler_stack_
      ∧ w2.files = w.files
      ∧ w2.g_crash_context_ = w.g_crash_context_ := by
  have hcheck : (!o.sigaction_get_fails
      && ((w.emit Event.lock).dispositions sig).sa_flags &&& SA_SIGINFO == 0) = true := by
    simp [hread, hflag]
  refine ⟨(if o.sigaction_set_fails sig = true then InstallDefaultHandler sig (w.emit Event.lock)
      else (w.emit Event.lock).setDispositions
        (Function.update (w.emit Event.lock).dispositions sig (reinstalledAction sig))).emit
      Event.unlock, ?_, ?_, ?_, ?_, ?_, ?_, ?_, ?_, ?_⟩
  · unfold ExceptionHandler.SignalHandler
    simp only [hcheck, if_true]
  · apply emitted_append
    cases o.sigaction_set_fails sig <;> simp [InstallDefaultHandler]
  · cases o.sigaction_set_fails sig <;> simp [InstallDefaultHandler, reinstalledAction]
  · intro s hs
    cases o.sigaction_set_fails sig <;> simp [InstallDefaultHandler, Function.update, hs]
  · cases o.sigaction_set_fails sig <;> simp [InstallDefaultHandler]
  · cases o.sigaction_set_fails sig <;> simp [InstallDefaultHandler]
  · cases o.sigaction_set_fails sig <;> simp [InstallDefaultHandler]
  · cases o.sigaction_set_fails sig <;> simp [InstallDefaultHandler]
  · cases o.sigaction_set_fails sig <;> simp [InstallDefaultHandler]

/-- Witness for C12: `SIGSEGV` delivered after the flag was lost. -/
theorem C12_reinstall_and_return_witness :
    ∃ w2, ExceptionHandler.SignalHandler SIGSEGV faultInfo emptyContext okSignal lostFlagWorld
        = some w2
      ∧ emitted lostFlagWorld w2 = [Event.lock, Event.unlock] :=
  have h := C12_reinstall_and_return SIGSEGV faultInfo emptyContext okSignal lostFlagWorld
    rfl (by decide)
  match h with
  | ⟨w2, h1, h2, _⟩ => ⟨w2, h1, h2⟩

/-- C12 as stated fails when the read of the installed disposition fails: the
disposition of `SIGSEGV` lacks `SA_SIGINFO`, yet `SignalHandler` goes on to the
registered instance, which runs a dump, restores the saved dispositions and
leaves the dispatcher uninstalled for `SIGSEGV`. -/
theorem C12_read_failure_skips_reinstall :
    (lostFlagWorld.dispositions SIGSEGV).sa_flags &&& SA_SIGINFO = 0
    ∧ (ExceptionHandler.SignalHandler SIGSEGV faultInfo emptyContext
        { okSignal with sigaction_get_fails := true } lostFlagWorld).map
        (fun w => (callbackCalls (emitted lostFlagWorld w), w.handlers_installed))
      = some ([(0, none, false), (1, some "/data/a/20240102030405", true)], false)
    ∧ (ExceptionHandler.SignalHandler SIGSEGV faultInfo emptyContext
        { okSignal with sigaction_get_fails := true } lostFlagWorld).map
        (fun w => w.dispositions SIGSEGV)
      = some previousAction := by
  decide

/-- C17, evaluated on the code: the dispatcher was put back for `SIGSEGV`
without `SA_SIGINFO`; a delivery makes `SignalHandler` reinstall itself with
flags `SA_ONSTACK | SA_SIGINFO` and a mask that holds `SIGSEGV` only, so the
dispatcher is installed with `SIGABRT`, `SIGFPE`, `SIGILL` and `SIGBUS` outside
its mask, while the mask installed by `InstallHandlersLocked` holds all five. -/
theorem C17_reinstalled_mask_is_one_signal :
    (ExceptionHandler.SignalHandler SIGSEGV faultInfo emptyContext okSignal lostFlagWorld).map
        (fun w => w.dispositions SIGSEGV)
      = some ⟨SigHandler.SignalHandler, [SIGSEGV], SA_ONSTACK ||| SA_SIGINFO⟩
    ∧ SIGABRT ∉ [SIGSEGV]
    ∧ (∀ s ∈ kExceptionSignals, s ∈ dispatcherAction.sa_mask)
    ∧ oneInstanceWorld.dispositions SIGABRT = dispatcherAction := by
  decide

/-! ## A constructor whose read of an old disposition fails -/

theorem saveOldHandlers_fails_at (g : Int → Bool) (w : World) (k : Nat)
    (hk : k < kNumHandledSignals)
    (hfail : g (kExceptionSignals.getD k 0) = true)
    (hbefore : ∀ j, j < k → g (kExceptionSignals.getD j 0) = false) :
    (saveOldHandlers g [0, 1, 2, 3, 4] w).1 = false
    ∧ (saveOldHandlers g [0, 1, 2, 3, 4] w).2.dispositions = w.dispositions
    ∧ (saveOldHandlers g [0, 1, 2, 3, 4] w).2.handlers_installed = w.handlers_installed
    ∧ (saveOldHandlers g [0, 1, 2, 3, 4] w).2.g_handler_stack_ = w.g_handler_stack_
    ∧ (saveOldHandlers g [0, 1, 2, 3, 4] w).2.altstack = w.altstack
    ∧ (saveOldHandlers g [0, 1, 2, 3, 4] w).2.stack_installed = w.stack_installed
    ∧ (∀ i, k ≤ i → (saveOldHandlers g [0, 1, 2, 3, 4] w).2.old_handlers i = w.old_handlers i)
    ∧ (∀ i, i < k → (saveOldHandlers g [0, 1, 2, 3, 4] w).2.old_handlers i
        = w.dispositions (kExceptionSignals.getD i 0)) := by
  have h5 : kNumHandledSignals = 5 := rfl
  rw [h5] at hk
  interval_cases k
  · simp only [saveOldHandlers, hfail, if_true, true_and]
    simp
  · have g0 := hbefore 0 (by decide)
    simp only [saveOldHandlers, g0, hfail, Bool.false_eq_true, if_false, if_true,
      World.setOldHandlers_dispositions, World.setOldHandlers_handlers_installed,
      World.setOldHandlers_g_handler_stack_, World.setOldHandlers_altstack,
      World.setOldHandlers_stack_installed, World.setOldHandlers_old_handlers, true_and]
    refine ⟨?_, ?_⟩
    · intro i hi
      have : i ≠ 0 := by omega
      simp [Function.update, this]
    · intro i hi
      interval_cases i
      simp [Function.update]
  · have g0 := hbefore 0 (by decide)
    have g1 := hbefore 1 (by decide)
    simp only [saveOldHandlers, g0, g1, hfail, Bool.false_eq_true, if_false, if_true,
      World.setOldHandlers_dispositions, World.setOldHandlers_handlers_installed,
      World.setOldHandlers_g_handler_stack_, World.setOldHandlers_altstack,
      World.setOldHandlers_stack_installed, World.setOldHandlers_old_handlers, true_and]
    refine ⟨?_, ?_⟩
    · intro i hi
      have h0 : i ≠ 0 := by omega
      have h1 : i ≠ 1 := by omega
      simp [Function.update, h0, h1]
    · intro i hi
      interval_cases i <;> simp [Function.update]
  · have g0 := hbefore 0 (by decide)
    have g1 := hbefore 1 (by decide)
    have g2 := hbefore 2 (by decide)
    simp only [saveOldHandlers, g0, g1, g2, hfail, Bool.false_eq_true, if_false, if_true,
      World.setOldHandlers_dispositions, World.setOldHandlers_handlers_installed,
      World.setOldHandlers_g_handler_stack_, World.setOldHandlers_altstack,
      World.setOldHandlers_stack_installed, World.setOldHandlers_old_handlers, true_and]
    refine ⟨?_, ?_⟩
    · intro i hi
      have h0 : i ≠ 0 := by omega
      have h1 : i ≠ 1 := by omega
      have h2 : i ≠ 2 := by omega
      simp [Function.update, h0, h1, h2]
    · intro i hi
      interval_cases i <;> simp [Function.update]
  · have g0 := hbefore 0 (by decide)
    have g1 := hbefore 1 (by decide)
    have g2 := hbefore 2 (by decide)
    have g3 := hbefore 3 (by decide)
    simp only [saveOldHandlers, g0, g1, g2, g3, hfail, Bool.false_eq_true, if_false, if_true,
      World.setOldHandlers_dispositions, World.setOldHandlers_handlers_installed,
      World.setOldHandlers_g_handler_stack_, World.setOldHandlers_altstack,
      World.setOldHandlers_stack_installed, World.setOldHandlers_old_handlers, true_and]
    refine ⟨?_, ?_⟩
    · intro i hi
      have h0 : i ≠ 0 := by omega
      have h1 : i ≠ 1 := by omega
      have h2 : i ≠ 2 := by omega
      have h3 : i ≠ 3 := by omega
      simp [Function.update, h0, h1, h2, h3]
    · intro i hi
      interval_cases i <;> simp [Function.update]

theorem InstallAlternateStackLocked_installs (o : InstallOracle) (w : World)
    (hnot : w.stack_installed = false)
    (hneed : o.sigaltstack_get_fails = true ∨ w.altstack.ss_sp = 0
      ∨ w.altstack.ss_size < kSigStackSize)
    (hset : o.sigaltstack_set_fails = false) :
    (InstallAlternateStackLocked o w).stack_installed = true
    ∧ (InstallAlternateStackLocked o w).altstack = ⟨o.calloc, 0, kSigStackSize⟩ := by
  unfold InstallAlternateStackLocked
  simp only [hnot, Bool.false_eq_true, if_false, hset]
  cases hg : o.sigaltstack_get_fails
  · have hc : (w.altstack.ss_sp == 0 || decide (w.altstack.ss_size < kSigStackSize)) = true := by
      rcases hneed with h | h | h
      · rw [hg] at h
        cases h
      · simp [h]
      · simp [h]
    simp [hc]
  · simp

theorem InstallHandlersLocked_fails_at (g sf : Int → Bool) (w : World) (k : Nat)
    (hinst : w.handlers_installed = false) (hk : k < kNumHandledSignals)
    (hfail : g (kExceptionSignals.getD k 0) = true)
    (hbefore : ∀ j, j < k → g (kExceptionSignals.getD j 0) = false) :
    InstallHandlersLocked g sf w = (false, (saveOldHandlers g [0, 1, 2, 3, 4] w).2) := by
  have h1 := (saveOldHandlers_fails_at g w k hk hfail hbefore).1
  unfold InstallHandlersLocked
  simp only [hinst, Bool.false_eq_true, if_false, handled_indices]
  rcases hs : saveOldHandlers g [0, 1, 2, 3, 4] w with ⟨b, w1⟩
  rw [hs] at h1
  simp only at h1
  subst h1
  rfl

/-- C11 (amended): the handlers are not installed and, while an instance is
constructed with `install_handler = true`, the read of the disposition of the
handled signal with index `k` fails after the reads before it succeeded.  Then
no disposition is changed and the installed flag stays false, the entries of
`old_handlers` from index `k` on are unchanged and those below `k` hold the
dispositions read; the instance is nevertheless appended to the registry, and
an alternate stack installed by this call stays installed. -/
theorem C11_failed_read_keeps_registration (addr : Nat) (directory : String)
    (callback : Option DumpCallback) (o : InstallOracle) (w : World) (k : Nat)
    (hinst : w.handlers_installed = false) (hk : k < kNumHandledSignals)
    (hfail : o.sigaction_get_fails (kExceptionSignals.getD k 0) = true)
    (hbefore : ∀ j, j < k → o.sigaction_get_fails (kExceptionSignals.getD j 0) = false) :
    (ExceptionHandler.construct addr directory callback true o w).g_handler_stack_
        = some (w.g_handler_stack_.getD [] ++ [newInstance addr directory callback])
    ∧ (ExceptionHandler.construct addr directory callback true o w).dispositions
        = w.dispositions
    ∧ (ExceptionHandler.construct addr directory callback true o w).handlers_installed = false
    ∧ (∀ i, k ≤ i →
        (ExceptionHandler.construct addr directory callback true o w).old_handlers i
          = w.old_handlers i)
    ∧ (∀ i, i < k →
        (ExceptionHandler.construct addr directory callback true o w).old_handlers i
          = w.dispositions (kExceptionSignals.getD i 0))
    ∧ (w.stack_installed = false →
        (o.sigaltstack_get_fails = true ∨ w.altstack.ss_sp = 0
          ∨ w.altstack.ss_size < kSigStackSize) →
        o.sigaltstack_set_fails = false →
        (ExceptionHandler.construct addr directory callback true o w).stack_installed = true
        ∧ (ExceptionHandler.construct addr directory callback true o w).altstack
            = ⟨o.calloc, 0, kSigStackSize⟩) := by
  have key : ∀ w3 : World, w3.handlers_installed = false → w3.dispositions = w.dispositions →
      w3.old_handlers = w.old_handlers → w3.stack_installed = w.stack_installed →
      w3.altstack = w.altstack → w3.g_handler_stack_ = some (w.g_handler_stack_.getD []) →
      ((((InstallHandlersLocked o.sigaction_get_fails o.sigaction_set_fails
          (InstallAlternateStackLocked o w3)).2.setHandlerStack
        (some (((InstallHandlersLocked o.sigaction_get_fails o.sigaction_set_fails
          (InstallAlternateStackLocked o w3)).2.g_handler_stack_.getD [])
            ++ [newInstance addr directory callback]))).emit Event.unlock).g_handler_stack_
        = some (w.g_handler_stack_.getD [] ++ [newInstance addr directory callback])
      ∧ (((InstallHandlersLocked o.sigaction_get_fails o.sigaction_set_fails
          (InstallAlternateStackLocked o w3)).2.setHandlerStack
        (some (((InstallHandlersLocked o.sigaction_get_fails o.sigaction_set_fails
          (InstallAlternateStackLocked o w3)).2.g_handler_stack_.getD [])
            ++ [newInstance addr directory callback]))).emit Event.unlock).dispositions
        = w.dispositions
      ∧ (((InstallHandlersLocked o.sigaction_get_fails o.sigaction_set_fails
          (InstallAlternateStackLocked o w3)).2.setHandlerStack
        (some (((InstallHandlersLocked o.sigaction_get_fails o.sigaction_set_fails
          (InstallAlternateStackLocked o w3)).2.g_handler_stack_.getD [])
            ++ [newInstance addr directory callback]))).emit Event.unlock).handlers_installed
        = false
      ∧ (∀ i, k ≤ i →
        (((InstallHandlersLocked o.sigaction_get_fails o.sigaction_set_fails
          (InstallAlternateStackLocked o w3)).2.setHandlerStack
        (some (((InstallHandlersLocked o.sigaction_get_fails o.sigaction_set_fails
          (InstallAlternateStackLocked o w3)).2.g_handler_stack_.getD [])
            ++ [newInstance addr directory callback]))).emit Event.unlock).old_handlers i
          = w.old_handlers i)
      ∧ (∀ i, i < k →
        (((InstallHandlersLocked o.sigaction_get_fails o.sigaction_set_fails
          (InstallAlternateStackLocked o w3)).2.setHandlerStack
        (some (((InstallHandlersLocked o.sigaction_get_fails o.sigaction_set_fails
          (InstallAlternateStackLocked o w3)).2.g_handler_stack_.getD [])
            ++ [newInstance addr directory callback]))).emit Event.unlock).old_handlers i
          = w.dispositions (kExceptionSignals.getD i 0))
      ∧ (w.stack_installed = false →
        (o.sigaltstack_get_fails = true ∨ w.altstack.ss_sp = 0
          ∨ w.altstack.ss_size < kSigStackSize) →
        o.sigaltstack_set_fails = false →
        (((InstallHandlersLocked o.sigaction_get_fails o.sigaction_set_fails
          (InstallAlternateStackLocked o w3)).2.setHandlerStack
        (some (((InstallHandlersLocked o.sigaction_get_fails o.sigaction_set_fails
          (InstallAlternateStackLocked o w3)).2.g_handler_stack_.getD [])
            ++ [newInstance addr directory callback]))).emit Event.unlock).stack_installed = true
        ∧ (((InstallHandlersLocked o.sigaction_get_fails o.sigaction_set_fails
          (InstallAlternateStackLocked o w3)).2.setHandlerStack
        (some (((InstallHandlersLocked o.sigaction_get_fails o.sigaction_set_fails
          (InstallAlternateStackLocked o w3)).2.g_handler_stack_.getD [])
            ++ [newInstance addr directory callback]))).emit Event.unlock).altstack
            = ⟨o.calloc, 0, kSigStackSize⟩)) := by
    intro w3 h3i h3d h3o h3s h3a h3g
    have hA := (InstallAlternateStackLocked_same o w3).1
    have hAi : (InstallAlternateStackLocked o w3).handlers_installed = false := by
      rw [hA.handlers_installed]
      exact h3i
    rw [InstallHandlersLocked_fails_at _ _ _ k hAi hk hfail hbefore]
    obtain ⟨_, s2, s3, s4, s5, s6, s7, s8⟩ :=
      saveOldHandlers_fails_at o.sigaction_get_fails (InstallAlternateStackLocked o w3) k hk
        hfail hbefore
    simp only [World.emit_g_handler_stack_, World.setHandlerStack_g_handler_stack_,
      World.emit_dispositions, World.setHandlerStack_dispositions,
      World.emit_handlers_installed, World.setHandlerStack_handlers_installed,
      World.emit_old_handlers, World.setHandlerStack_old_handlers,
      World.emit_stack_installed, World.setHandlerStack_stack_installed,
      World.emit_altstack, World.setHandlerStack_altstack]
    refine ⟨?_, ?_, ?_, ?_, ?_, ?_⟩
    · rw [s4, hA.g_handler_stack_, h3g]
      rfl
    · rw [s2, hA.dispositions, h3d]
    · rw [s3]
      exact hAi
    · intro i hi
      rw [s7 i hi, hA.old_handlers, h3o]
    · intro i hi
      rw [s8 i hi, hA.dispositions, h3d]
    · intro hn hneed hset
      rw [s6, s5]
      exact InstallAlternateStackLocked_installs o w3 (h3s ▸ hn) (h3a ▸ hneed) hset
  unfold ExceptionHandler.construct
  simp only [if_true, World.setCrashContext_g_handler_stack_, World.emit_g_handler_stack_]
  cases hst : w.g_handler_stack_ with
  | none =>
    have hk3 := key (((w.emit Event.lock).setCrashContext CrashContext.zero).setHandlerStack
      (some [])) (by simpa using hinst) (by simp) (by simp) (by simp) (by simp) (by simp [hst])
    rw [hst] at hk3
    exact hk3
  | some stk =>
    have hk3 := key ((w.emit Event.lock).setCrashContext CrashContext.zero)
      (by simpa using hinst) (by simp) (by simp) (by simp) (by simp) (by simp [hst])
    rw [hst] at hk3
    exact hk3

/-- Witness for C11: the read of the disposition of `SIGABRT` fails. -/
theorem C11_failed_read_keeps_registration_witness :
    (ExceptionHandler.construct 1 "/data/a" (some echoCallback) true abrtReadFails
        idleWorld).g_handler_stack_
      = some (idleWorld.g_handler_stack_.getD []
          ++ [newInstance 1 "/data/a" (some echoCallback)])
    ∧ (ExceptionHandler.construct 1 "/data/a" (some echoCallback) true abrtReadFails
        idleWorld).handlers_installed = false :=
  have h := C11_failed_read_keeps_registration 1 "/data/a" (some echoCallback) abrtReadFails
    idleWorld 1 rfl (by decide) (by decide)
    (by intro j hj; interval_cases j; decide)
  ⟨h.1, h.2.2.1⟩

/-- C11 as stated fails: the read of the disposition of `SIGABRT` fails while
the first instance is constructed; afterwards the registry holds the instance,
the alternate stack installed by the call is still installed, and entry 0 of
`old_handlers` has been overwritten with the disposition of `SIGSEGV`. -/
theorem C11_instance_registered_after_failed_read :
    idleWorld.g_handler_stack_.map (fun st => st.length) = none
    ∧ idleWorld.stack_installed = false
    ∧ (ExceptionHandler.construct 1 "/data/a" (some echoCallback) true abrtReadFails
        idleWorld).g_handler_stack_.map (fun st => st.map (fun h => h.addr)) = some [1]
    ∧ (ExceptionHandler.construct 1 "/data/a" (some echoCallback) true abrtReadFails
        idleWorld).stack_installed = true
    ∧ (ExceptionHandler.construct 1 "/data/a" (some echoCallback) true abrtReadFails
        idleWorld).handlers_installed = false
    ∧ idleWorld.old_handlers 0 = ⟨SigHandler.SIG_DFL, [], 0⟩
    ∧ (ExceptionHandler.construct 1 "/data/a" (some echoCallback) true abrtReadFails
        idleWorld).old_handlers 0 = previousAction := by
  decide

/-! ## The order in which the dispatcher visits the instances -/

theorem toDigitsCore_step (fuel n : Nat) (ds : List Char) (hf : 0 < fuel) :
    Nat.toDigitsCore 10 fuel n ds =
      if n / 10 = 0 then Nat.digitChar (n % 10) :: ds
      else Nat.toDigitsCore 10 (fuel - 1) (n / 10) (Nat.digitChar (n % 10) :: ds) := by
  cases fuel with
  | zero => exact absurd hf (Nat.lt_irrefl 0)
  | succ f => simp [Nat.toDigitsCore]

theorem digitChar_eq (n : Nat) : Nat.digitChar (n % 10) = digit n := by
  have h : n % 10 < 10 := Nat.mod_lt n (by decide)
  unfold digit
  generalize n % 10 = m at h
  interval_cases m <;> decide

theorem toString_one (n : Nat) (h2 : n < 10) : toString n = String.mk [digit n] := by
  show (Nat.toDigits 10 n).asString = _
  unfold Nat.toDigits
  rw [toDigitsCore_step _ _ _ (by omega), if_pos (by omega), digitChar_eq]
  rfl

theorem toString_two (n : Nat) (h1 : 10 ≤ n) (h2 : n < 100) :
    toString n = String.mk [digit (n / 10), digit n] := by
  show (Nat.toDigits 10 n).asString = _
  unfold Nat.toDigits
  rw [toDigitsCore_step _ _ _ (by omega), if_neg (by omega),
    toDigitsCore_step _ _ _ (by omega), if_pos (by omega), digitChar_eq, digitChar_eq]
  rfl

theorem toString_four (n : Nat) (h1 : 1000 ≤ n) (h2 : n < 10000) :
    toString n = String.mk [digit (n / 1000), digit (n / 100), digit (n / 10), digit n] := by
  show (Nat.toDigits 10 n).asString = _
  unfold Nat.toDigits
  rw [toDigitsCore_step _ _ _ (by omega), if_neg (by omega),
    toDigitsCore_step _ _ _ (by omega), if_neg (by omega),
    toDigitsCore_step _ _ _ (by omega), if_neg (by omega),
    toDigitsCore_step _ _ _ (by omega), if_pos (by omega),
    digitChar_eq, digitChar_eq, digitChar_eq, digitChar_eq]
  have e1 : n / 10 / 10 = n / 100 := by omega
  have e2 : n / 10 / 10 / 10 = n / 1000 := by omega
  rw [e2, e1]
  rfl

theorem twoDigits_eq (n : Nat) (h : n < 100) :
    twoDigits n = String.mk [digit (n / 10), digit n] := by
  unfold twoDigits
  by_cases h10 : n < 10
  · rw [if_pos h10, toString_one n h10]
    have e : n / 10 = 0 := by omega
    rw [e]
    rfl
  · rw [if_neg h10, toString_two n (by omega) h]

theorem strftime_eq_spec (t : tm) (hlo : 1000 ≤ t.tm_year + 1900)
    (hhi : t.tm_year + 1900 ≤ 9999) (hr : t.inRange) :
    strftime 20 t = some (spec_timestamp t) := by
  obtain ⟨h1, h2, h3, h4, h5, h6⟩ := hr
  have hs : toString (t.tm_year + 1900) ++ twoDigits (t.tm_mon + 1) ++ twoDigits t.tm_mday
      ++ twoDigits t.tm_hour ++ twoDigits t.tm_min ++ twoDigits t.tm_sec
      = spec_timestamp t := by
    rw [toString_four _ hlo (by omega), twoDigits_eq _ (by omega), twoDigits_eq _ (by omega),
      twoDigits_eq _ (by omega), twoDigits_eq _ (by omega), twoDigits_eq _ (by omega)]
    rfl
  have hl : (spec_timestamp t).length = 14 := rfl
  unfold strftime
  simp only [hs]
  rw [if_pos (by rw [hl]; decide)]

theorem GenerateDump_handler (h : ExceptionHandler) (o : DumpOracle) (w : World)
    (halloc : o.alloc_ok = true) :
    (h.GenerateDump o w).2.1 =
      { h with
        path_ := h.directory_ ++ "/" ++ (strftime 20 o.localtime).getD o.time_string_init
        c_path_ := some
          (h.directory_ ++ "/" ++ (strftime 20 o.localtime).getD o.time_string_init)
        fdes := some (o.pipe.getD (-1, -1)) } := by
  unfold ExceptionHandler.GenerateDump
  simp only [halloc, Bool.not_true, Bool.false_eq_true, if_false]
  split <;> rfl

/-- C13: for every directory and every broken-down local time whose year has
four digits, the format used by `GenerateDump` fits the 20-byte buffer (14
characters and the terminator) and yields the 14 digits `YYYYMMDDHHMMSS`, and
the artifact path that `GenerateDump` stores is the directory, `/` and those
14 digits. -/
theorem C13_artifact_path (h : ExceptionHandler) (o : DumpOracle) (w : World)
    (halloc : o.alloc_ok = true)
    (hlo : 1000 ≤ o.localtime.tm_year + 1900) (hhi : o.localtime.tm_year + 1900 ≤ 9999)
    (hr : o.localtime.inRange) :
    strftime 20 o.localtime = some (spec_timestamp o.localtime)
    ∧ (spec_timestamp o.localtime).length + 1 ≤ 20
    ∧ (spec_timestamp o.localtime).length = 14
    ∧ (h.GenerateDump o w).2.1.path_ = h.directory_ ++ "/" ++ spec_timestamp o.localtime
    ∧ (h.GenerateDump o w).2.1.c_path_
        = some (h.directory_ ++ "/" ++ spec_timestamp o.localtime) := by
  have hs := strftime_eq_spec o.localtime hlo hhi hr
  have hl : (spec_timestamp o.localtime).length = 14 := rfl
  refine ⟨hs, by rw [hl]; decide, hl, ?_, ?_⟩
  · rw [GenerateDump_handler h o w halloc, hs]
    rfl
  · rw [GenerateDump_handler h o w halloc, hs]
    rfl

/-- Witness for C13: 2024-01-02 03:04:05 in directory `/data/a`. -/
theorem C13_artifact_path_witness :
    strftime 20 okDump.localtime = some (spec_timestamp okDump.localtime)
    ∧ (freshHandler.GenerateDump okDump idleWorld).2.1.path_
        = freshHandler.directory_ ++ "/" ++ spec_timestamp okDump.localtime :=
  have h := C13_artifact_path freshHandler okDump idleWorld rfl (by decide) (by decide)
    (by unfold tm.inRange; decide)
  ⟨h.1, h.2.2.2.1⟩

/-! ## The tracer child -/

theorem GenerateDump_signal (h : ExceptionHandler) (o : DumpOracle) (w : World) :
    (h.GenerateDump o w).2.2.signal = w.signal
    ∧ (h.GenerateDump o w).2.2.g_crash_context_ = w.g_crash_context_ := by
  unfold ExceptionHandler.GenerateDump
  split
  · exact ⟨rfl, rfl⟩
  · simp only []
    split <;> constructor <;> simp

theorem HandleSignal_captures (h : ExceptionHandler) (sig : Int) (info : siginfo_t)
    (uc : ucontext) (o : DumpOracle) (w : World)
    (hidle : h.directory_ ++ "/" ++ FLAG_FILE ∉ w.files) :
    (h.HandleSignal sig info uc o w).2.2.signal = sig
    ∧ (h.HandleSignal sig info uc o w).2.2.g_crash_context_
        = { siginfo := info, tid := o.gettid, context := uc,
            float_state := uc.fpregs.getD [] } := by
  unfold ExceptionHandler.HandleSignal
  rw [CheckHandlerValid_idle h o w hidle]
  simp only []
  rw [(GenerateDump_signal _ _ _).1, (GenerateDump_signal _ _ _).2]
  simp

/-- C15: for every request, `ThreadEntry` calls the tombstone writer exactly
once, with the process id of the request, the thread id of the crash context,
the global `signal`, the machine context of the crash context and the path of
the request, and returns 0 when the writer returns true and 1 when it returns
false.  After a `HandleSignal(sig, info, uc)` that passed the reentrancy guard,
the crash context and the global `signal` are such that this call carries the
thread id of the crashing thread, `sig` and `uc`. -/
theorem C15_tracer_entry (engrave_tombstone : TombstoneCall → Bool) (pid : Int)
    (handler : ExceptionHandler) (context_size : Nat) (path : String)
    (h : ExceptionHandler) (sig : Int) (info : siginfo_t) (uc : ucontext) (o : DumpOracle)
    (w : World) (hidle : h.directory_ ++ "/" ++ FLAG_FILE ∉ w.files) :
    (∀ (arg : ThreadArgument) (wc : World),
      tombstoneCalls (ExceptionHandler.ThreadEntry engrave_tombstone arg wc).2
        = [⟨arg.pid, arg.context.tid, wc.signal, 0, arg.context.context, arg.path⟩]
      ∧ (ExceptionHandler.ThreadEntry engrave_tombstone arg wc).1
        = (if engrave_tombstone
              ⟨arg.pid, arg.context.tid, wc.signal, 0, arg.context.context, arg.path⟩
           then 0 else 1))
    ∧ tombstoneCalls (ExceptionHandler.ThreadEntry engrave_tombstone
        ⟨pid, handler, (h.HandleSignal sig info uc o w).2.2.g_crash_context_, context_size, path⟩
        (h.HandleSignal sig info uc o w).2.2).2
      = [⟨pid, o.gettid, sig, 0, uc, path⟩]
    ∧ (ExceptionHandler.ThreadEntry engrave_tombstone
        ⟨pid, handler, (h.HandleSignal sig info uc o w).2.2.g_crash_context_, context_size, path⟩
        (h.HandleSignal sig info uc o w).2.2).1
      = (if engrave_tombstone ⟨pid, o.gettid, sig, 0, uc, path⟩ then 0 else 1) := by
  have gen : ∀ (arg : ThreadArgument) (wc : World),
      tombstoneCalls (ExceptionHandler.ThreadEntry engrave_tombstone arg wc).2
        = [⟨arg.pid, arg.context.tid, wc.signal, 0, arg.context.context, arg.path⟩]
      ∧ (ExceptionHandler.ThreadEntry engrave_tombstone arg wc).1
        = (if engrave_tombstone
              ⟨arg.pid, arg.context.tid, wc.signal, 0, arg.context.context, arg.path⟩
           then 0 else 1) := by
    intro arg wc
    unfold ExceptionHandler.ThreadEntry ExceptionHandler.DoDump
      ExceptionHandler.WaitForContinueSignal
    refine ⟨by simp [tombstoneCalls], ?_⟩
    simp only []
    by_cases he : engrave_tombstone
        ⟨arg.pid, arg.context.tid, wc.signal, 0, arg.context.context, arg.path⟩ = true
    · simp [he]
    · simp [he]
  obtain ⟨hsig, hctx⟩ := HandleSignal_captures h sig info uc o w hidle
  have g2 := gen
    ⟨pid, handler, (h.HandleSignal sig info uc o w).2.2.g_crash_context_, context_size, path⟩
    (h.HandleSignal sig info uc o w).2.2
  refine ⟨gen, ?_, ?_⟩
  · rw [g2.1, hsig, hctx]
  · rw [g2.2, hsig, hctx]

/-- Witness for C15: the child of the dump of a fresh instance, with a writer
that succeeds. -/
theorem C15_tracer_entry_witness :
    tombstoneCalls (ExceptionHandler.ThreadEntry (fun _ => true)
        ⟨100, freshHandler,
          (freshHandler.HandleSignal SIGSEGV faultInfo emptyContext okDump
            idleWorld).2.2.g_crash_context_, 0, "/data/a/20240102030405"⟩
        (freshHandler.HandleSignal SIGSEGV faultInfo emptyContext okDump idleWorld).2.2).2
      = [⟨100, okDump.gettid, SIGSEGV, 0, emptyContext, "/data/a/20240102030405"⟩] :=
  (C15_tracer_entry (fun _ => true) 100 freshHandler 0 "/data/a/20240102030405" freshHandler
    SIGSEGV faultInfo emptyContext okDump idleWorld (by decide)).2.1

end google_breakpad

namespace corkscrew

/-! ## The demangler is resolved lazily -/

end corkscrew

namespace debuggerd

/-! ## `write_to_am` writes the buffer piece by piece -/

theorem loop_positive (write : Nat → Int → Int) (len : Int) (buf : List Nat)
    (hw : ∀ k n, 0 < n → 0 < write k n ∧ write k n ≤ n) (hbuf : (buf.length : Int) = len) :
    ∀ (fuel k : Nat) (to_write : Int) (calls : List WriteCall),
      0 ≤ to_write → to_write ≤ len → to_write ≤ fuel →
      ∃ more, write_to_am.loop write len fuel k to_write calls = some (len, calls ++ more)
        ∧ consumed buf more = buf.drop (len - to_write).toNat
        ∧ chained len (len - to_write) more
        ∧ ∀ c ∈ more, 0 < c.written ∧ c.written ≤ c.count := by
  intro fuel
  induction fuel with
  | zero =>
    intro k tw calls h0 _ hf
    have htw : tw = 0 := by
      simp only [Nat.cast_zero] at hf
      omega
    subst htw
    refine ⟨[], by simp [write_to_am.loop], ?_, trivial, by simp⟩
    have : (len - 0).toNat = buf.length := by omega
    rw [this]
    simp [consumed]
  | succ fuel ih =>
    intro k tw calls h0 hl hf
    by_cases hpos : tw > 0
    · obtain ⟨hr1, hr2⟩ := hw k tw hpos
      have hnn : ¬ write k tw < 0 := by omega
      obtain ⟨more, hm1, hm2, hm3, hm4⟩ := ih (k + 1) (tw - write k tw)
        (calls ++ [{ offset := len - tw, count := tw, written := write k tw }])
        (by omega) (by omega) (by push_cast at hf; omega)
      refine ⟨{ offset := len - tw, count := tw, written := write k tw } :: more, ?_, ?_, ?_, ?_⟩
      · unfold write_to_am.loop
        simp only [hpos, if_true, hnn, if_false]
        rw [hm1, List.append_assoc]
        rfl
      · simp only [consumed]
        rw [hm2]
        have e : (len - (tw - write k tw)).toNat = (len - tw).toNat + (write k tw).toNat := by
          omega
        rw [e, ← List.drop_drop]
        exact List.take_append_drop _ _
      · refine ⟨rfl, by simp only []; omega, ?_⟩
        have e : len - tw + write k tw = len - (tw - write k tw) := by omega
        simp only []
        rw [e]
        exact hm3
      · intro c hc
        simp only [List.mem_cons] at hc
        rcases hc with rfl | hc
        · exact ⟨hr1, hr2⟩
        · exact hm4 c hc
    · have htw : tw = 0 := by omega
      subst htw
      refine ⟨[], by simp [write_to_am.loop], ?_, trivial, by simp⟩
      have : (len - 0).toNat = buf.length := by omega
      rw [this]
      simp [consumed]

theorem loop_terminates (write : Nat → Int → Int) (len : Int)
    (hw : ∀ k n, 0 < n → write k n ≠ 0 ∧ write k n ≤ n) :
    ∀ (fuel k : Nat) (to_write : Int) (calls : List WriteCall), to_write ≤ fuel →
      ∃ r, write_to_am.loop write len fuel k to_write calls = some r := by
  intro fuel
  induction fuel with
  | zero =>
    intro k tw calls hf
    have : ¬ tw > 0 := by
      simp only [Nat.cast_zero] at hf
      omega
    exact ⟨(len, calls), by simp [write_to_am.loop, this]⟩
  | succ fuel ih =>
    intro k tw calls hf
    unfold write_to_am.loop
    by_cases hpos : tw > 0
    · obtain ⟨hr1, hr2⟩ := hw k tw hpos
      simp only [hpos, if_true]
      by_cases hneg : write k tw < 0
      · exact ⟨(-1, calls ++ [{ offset := len - tw, count := tw, written := write k tw }]),
          by simp [hneg]⟩
      · simp only [hneg, if_false]
        exact ih _ _ _ (by push_cast at hf; omega)
    · exact ⟨(len, calls), by simp [hpos]⟩

theorem loop_negative (write : Nat → Int → Int) (len : Int) :
    ∀ (fuel k : Nat) (to_write : Int) (calls : List WriteCall) (ret : Int)
      (out : List WriteCall),
      write_to_am.loop write len fuel k to_write calls = some (ret, out) →
      ∃ more, out = calls ++ more
        ∧ (∀ c ∈ more.dropLast, 0 ≤ c.written)
        ∧ ((∃ c ∈ more, c.written < 0) →
            ret = -1 ∧ ∃ c, more.getLast? = some c ∧ c.written < 0)
        ∧ ((∀ c ∈ more, 0 ≤ c.written) → ret = len) := by
  intro fuel
  induction fuel with
  | zero =>
    intro k tw calls ret out h
    unfold write_to_am.loop at h
    split at h
    · cases h
    · simp only [Option.some.injEq, Prod.mk.injEq] at h
      obtain ⟨rfl, rfl⟩ := h
      exact ⟨[], by simp, by simp, by simp, by simp⟩
  | succ fuel ih =>
    intro k tw calls ret out h
    unfold write_to_am.loop at h
    by_cases hpos : tw > 0
    · simp only [hpos, if_true] at h
      by_cases hneg : write k tw < 0
      · simp only [hneg, if_true, Option.some.injEq, Prod.mk.injEq] at h
        obtain ⟨rfl, rfl⟩ := h
        refine ⟨[{ offset := len - tw, count := tw, written := write k tw }], rfl, by simp,
          ?_, ?_⟩
        · intro _
          exact ⟨rfl, _, rfl, hneg⟩
        · intro hall
          have := hall _ (List.mem_singleton.mpr rfl)
          simp only [] at this
          omega
      · simp only [hneg, if_false] at h
        obtain ⟨more, hm1, hm2, hm3, hm4⟩ := ih _ _ _ _ _ h
        refine ⟨{ offset := len - tw, count := tw, written := write k tw } :: more,
          by rw [hm1, List.append_assoc]; rfl, ?_, ?_, ?_⟩
        · intro c hc
          cases more with
          | nil => simp at hc
          | cons q qs =>
            simp only [List.dropLast_cons₂, List.mem_cons] at hc
            rcases hc with rfl | hc
            · simp only []
              omega
            · exact hm2 c hc
        · rintro ⟨c, hc, hcneg⟩
          simp only [List.mem_cons] at hc
          rcases hc with rfl | hc
          · exact absurd hcneg hneg
          · obtain ⟨r1, c2, hc2, hc2neg⟩ := hm3 ⟨c, hc, hcneg⟩
            refine ⟨r1, c2, ?_, hc2neg⟩
            cases more with
            | nil => simp at hc
            | cons q qs =>
              rw [List.getLast?_cons_cons]
              exact hc2
        · intro hall
          exact hm4 (fun c hc => hall c (List.mem_cons_of_mem _ hc))
    · simp only [hpos, if_false, Option.some.injEq, Prod.mk.injEq] at h
      obtain ⟨rfl, rfl⟩ := h
      exact ⟨[], by simp, by simp, by simp, by simp⟩

/-- C20: (a) when every `write` returns a positive count no larger than what
it was asked for, `write_to_am` returns `len` within `len` iterations, every
call starts where the one before stopped and asks for everything up to `len`,
and the bytes taken by the calls, one call after the other, are the buffer;
(b) in every run that returns, a call of `write` that returned a negative
value is the last call and the value returned is -1, and all calls before the
last returned a value that is not negative; the run does return within `len`
iterations when no `write` returns 0 or more than it was asked for; (c) for
`len <= 0` no call is made and `len` is returned. -/
theorem C20_write_to_am (write : Nat → Int → Int) (len : Int) (buf : List Nat) :
    ((∀ k n, 0 < n → 0 < write k n ∧ write k n ≤ n) → (buf.length : Int) = len →
      ∃ calls, write_to_am write len len.toNat = some (len, calls)
        ∧ consumed buf calls = buf
        ∧ chained len 0 calls
        ∧ ∀ c ∈ calls, 0 < c.written ∧ c.written ≤ c.count)
    ∧ (∀ fuel ret calls, write_to_am write len fuel = some (ret, calls) →
        (∀ c ∈ calls.dropLast, 0 ≤ c.written)
        ∧ ((∃ c ∈ calls, c.written < 0) →
            ret = -1 ∧ ∃ c, calls.getLast? = some c ∧ c.written < 0))
    ∧ ((∀ k n, 0 < n → write k n ≠ 0 ∧ write k n ≤ n) →
        ∃ r, write_to_am write len len.toNat = some r)
    ∧ (len ≤ 0 → ∀ fuel, write_to_am write len fuel = some (len, [])) := by
  refine ⟨?_, ?_, ?_, ?_⟩
  · intro hw hbuf
    obtain ⟨more, h1, h2, h3, h4⟩ := loop_positive write len buf hw hbuf len.toNat 0 len []
      (by omega) (by omega) (by omega)
    refine ⟨more, ?_, ?_, ?_, h4⟩
    · unfold write_to_am
      rw [h1]
      rfl
    · rw [h2]
      simp
    · simpa using h3
  · intro fuel ret calls h
    obtain ⟨more, h1, h2, h3, _⟩ := loop_negative write len fuel 0 len [] ret calls h
    simp only [List.nil_append] at h1
    subst h1
    exact ⟨h2, h3⟩
  · intro hw
    exact loop_terminates write len hw len.toNat 0 len [] (by omega)
  · intro hlen fuel
    unfold write_to_am
    have hnot : ¬ len > 0 := by omega
    cases fuel <;> simp [write_to_am.loop, hnot]

/-- C20 at a buffer of five bytes written in pieces of at most two bytes. -/
theorem C20_write_to_am_witness :
    ∃ calls, write_to_am (fun _ n => min n 2) 5 (5 : Int).toNat = some (5, calls)
      ∧ consumed [10, 11, 12, 13, 14] calls = [10, 11, 12, 13, 14]
      ∧ chained 5 0 calls
      ∧ ∀ c ∈ calls, 0 < c.written ∧ c.written ≤ c.count :=
  (C20_write_to_am (fun _ n => min n 2) 5 [10, 11, 12, 13, 14]).1
    (by intro k n hn; constructor <;> omega) rfl

end debuggerd

namespace native_jnicrash

/-! ## The callback that notifies the managed runtime -/

/-- No path through `do_call_back` returns a value. -/
theorem do_call_back_no_return (para : callbackPara) (o : Oracle) :
    (do_call_back para o).2 = none := rfl

/-- When neither `type != 1` nor `succeeded` holds, `dump_callback` calls nothing
and returns `succeeded`, which is false. -/
theorem dump_callback_not_needed (type : Int) (path : Option String) (succeeded : Bool)
    (o : Oracle) (h : ¬ (type ≠ 1 ∨ succeeded = true)) :
    dump_callback type path succeeded o = some (succeeded, [])
    ∧ succeeded = false := by
  simp only [not_or, not_not, Bool.not_eq_true] at h
  unfold dump_callback
  simp [h.1, h.2]

/-- When `pthread_create` is called and fails, nothing more is called and the
value returned is false. -/
theorem dump_callback_create_fails (type : Int) (path : Option String) (succeeded : Bool)
    (o : Oracle) (h : type ≠ 1 ∨ succeeded = true) (hr : o.pthread_create ≠ 0) :
    dump_callback type path succeeded o
      = some (false, [Event.pthread_create ⟨path, type⟩ o.pthread_create]) := by
  have hb : (type != 1 || succeeded) = true := by
    rcases h with h | h
    · simp [h]
    · simp [h]
  unfold dump_callback
  simp [hb, hr]

/-- When `pthread_create` is called and succeeds, the thread body runs off its
end and the behaviour of `dump_callback` is undefined. -/
theorem dump_callback_thread_created (type : Int) (path : Option String) (succeeded : Bool)
    (o : Oracle) (h : type ≠ 1 ∨ succeeded = true) (hr : o.pthread_create = 0) :
    dump_callback type path succeeded o = none := by
  have hb : (type != 1 || succeeded) = true := by
    rcases h with h | h
    · simp [h]
    · simp [h]
  unfold dump_callback
  simp [hb, hr, do_call_back]

/-- C21, evaluated on the code: with `pthread_create` returning 0, the thread
started for a begin event (type 0) and the one started for a successful end
event (type 1, `succeeded` true) make their calls into the managed runtime and
then reach the end of `do_call_back`, a `void *` function, without a `return`;
the behaviour of `dump_callback` is undefined from there, so it is not the
case that it returns `succeeded` whenever the thread is created. -/
theorem C21_thread_body_ends_without_return :
    do_call_back ⟨none, 0⟩ ⟨0, true⟩
      = ([Event.AttachCurrentThread, Event.GetStaticMethodID "crashDumpBegin",
          Event.CallStaticVoidMethod "crashDumpBegin" (some "0"),
          Event.DetachCurrentThread], none)
    ∧ dump_callback 0 none false ⟨0, true⟩ = none
    ∧ do_call_back ⟨some "/data/a/20240102030405", 1⟩ ⟨0, true⟩
      = ([Event.AttachCurrentThread, Event.GetStaticMethodID "crashDumpEnd",
          Event.CallStaticVoidMethod "crashDumpEnd" (some "/data/a/20240102030405"),
          Event.DetachCurrentThread], none)
    ∧ dump_callback 1 (some "/data/a/20240102030405") true ⟨0, true⟩ = none := by
  decide

end native_jnicrash
